import Mathlib

/-!
# Verification of the docx-wasm JavaScript binding layer

This development is a shallow embedding of `src/docx-wasm/js/index.ts`, the
TypeScript layer that converts the user-facing document model of the library
into the wasm document builder, together with a logical model of the wasm
build/read pair described by the specification.

Conventions used throughout:
* TypeScript string-literal union types are embedded as `String`, since the
  source performs `switch`/`if` dispatch on strings with explicit default
  behaviour for unrecognized values.
* `typeof x !== "undefined"` and `x != null` checks on optional fields are
  embedded as `Option.isSome`.
* JavaScript truthiness checks on strings (`if (s)`) are embedded as
  "`some s` with `s` non-empty"; truthiness on numbers as "`some n` with
  `n ≠ 0`"; truthiness on booleans as the boolean itself.
* Classes whose files are not part of the sources (paragraph.ts, table.ts,
  settings.ts, ...) are modelled from the specification, and each such
  definition carries a doc comment saying so.
-/

namespace DocxWasm

/-! ## Wasm enum codes (`wasm.BorderType`, `wasm.WidthType`, ...) -/

/-- Embedding of the wasm `BorderType` enum. -/
inductive BorderTypeCode where
  | Nil | NoBorder | Single | Thick | Double | Dotted | Dashed
  | DotDash | DotDotDash | Triple
  deriving DecidableEq, Repr

/-- Embedding of the wasm `WidthType` enum. -/
inductive WidthTypeCode where
  | Nil | Pct | DXA | Auto
  deriving DecidableEq, Repr

/-- Embedding of `convertBorderType` (index.ts lines 32-57): a `switch` over
the border-type string with a `default` branch returning `Single`. -/
def convertBorderType (t : String) : BorderTypeCode :=
  if t = "nil" then .Nil
  else if t = "none" then .NoBorder
  else if t = "single" then .Single
  else if t = "thick" then .Thick
  else if t = "double" then .Double
  else if t = "dotted" then .Dotted
  else if t = "dashed" then .Dashed
  else if t = "dotDash" then .DotDash
  else if t = "dotDotDash" then .DotDotDash
  else if t = "triple" then .Triple
  else .Single

/-- Embedding of `convertWidthType` (index.ts lines 59-72): a `switch` over
the width-type string with a `default` branch returning `DXA`. -/
def convertWidthType (t : String) : WidthTypeCode :=
  if t = "nil" then .Nil
  else if t = "Pct" then .Pct
  else if t = "DXA" then .DXA
  else if t = "Auto" then .Auto
  else .DXA

/-- The recognized border-type literals of `convertBorderType`. -/
def recognizedBorderTypes : List String :=
  ["nil", "none", "single", "thick", "double", "dotted", "dashed",
   "dotDash", "dotDotDash", "triple"]

/-- The recognized width-type literals of `convertWidthType`. -/
def recognizedWidthTypes : List String := ["nil", "Pct", "DXA", "Auto"]

/-! ## JavaScript truthiness helpers -/

/-- JS truthiness of an optional string field (`if (x)`): the field is set
and non-empty. -/
def strTruthy : Option String → Bool
  | some s => !s.isEmpty
  | none => false

/-- JS truthiness of an optional numeric field (`if (x)`): the field is set
and non-zero. -/
def natTruthy : Option Nat → Bool
  | some n => n != 0
  | none => false

/-! ## JS model: run-level nodes

`run.ts`, `text.ts`, `tab.ts`, `break.ts`, `delete-text.ts` are not under
`src/`; their shapes are modelled from the fields `index.ts` reads and from
the specification (§3, Run node). -/

/-- Modelled from the spec: `RunFonts` of run.ts (not under src/) holds four
optional font names, read by `buildRunFonts` as `_ascii`, `_hiAnsi`, `_cs`,
`_eastAsia`. -/
structure RunFonts where
  _ascii : Option String := none
  _hiAnsi : Option String := none
  _cs : Option String := none
  _eastAsia : Option String := none
  deriving DecidableEq, Repr

/-- Modelled from the spec: the text border property of run.ts (not under
src/), read by `buildRun` as `{borderType, color, space, size}`. -/
structure TextBorder where
  borderType : String
  color : String
  space : Nat
  size : Nat
  deriving DecidableEq, Repr

/-- Modelled from the spec: `RunProperty` of run.ts (not under src/), holding
the fields `buildRun` reads (§3: size, color, highlight, vertical-align,
bold/italic, underline, vanish, spacing, text border, fonts). -/
structure RunProperty where
  size : Option Nat := none
  color : Option String := none
  highlight : Option String := none
  vertAlign : Option String := none
  bold : Bool := false
  italic : Bool := false
  underline : Option String := none
  vanish : Bool := false
  spacing : Option Int := none
  textBorder : Option TextBorder := none
  fonts : Option RunFonts := none
  deriving DecidableEq, Repr

/-- Modelled from the spec: the child nodes a Run owns (§3: Text |
DeleteText | Tab | Break). A Break carries its string break type, read by
`buildRun` as `child.type`. -/
inductive RunChild where
  | text (s : String)
  | deleteText (s : String)
  | tab
  | breakChild (ty : String)
  deriving DecidableEq, Repr

/-- Modelled from the spec: the `Run` class of run.ts (not under src/):
ordered children plus a `RunProperty`. -/
structure Run where
  children : List RunChild := []
  property : RunProperty := {}
  deriving DecidableEq, Repr

/-! ## Wasm model: run-level nodes

The wasm builder objects (`wasm.createRun()` and its chained setters) are
produced by the Rust core, which is not under `src/`. They are modelled from
the spec as records; each chained setter is a field update. -/

/-- Embedding of the wasm `BreakType` enum. -/
inductive BreakTypeCode where
  | Column | Page | TextWrapping
  deriving DecidableEq, Repr

/-- Embedding of the wasm `VertAlignType` enum. -/
inductive VertAlignCode where
  | SuperScript | SubScript
  deriving DecidableEq, Repr

/-- Modelled from the spec: fonts record built by `wasm.createRunFonts()`
and its `ascii`/`hi_ansi`/`cs`/`east_asia` setters. -/
structure WasmRunFonts where
  ascii : Option String := none
  hiAnsi : Option String := none
  cs : Option String := none
  eastAsia : Option String := none
  deriving DecidableEq, Repr

/-- Modelled from the spec: a child element of a wasm run, appended by
`add_text` / `add_delete_text` / `add_tab` / `add_break`. -/
inductive WasmRunChild where
  | text (s : String)
  | deleteText (s : String)
  | tab
  | breakChild (t : BreakTypeCode)
  deriving DecidableEq, Repr

/-- Modelled from the spec: the wasm text-border record set by
`run.text_border(borderType, size, space, color)`. -/
structure WasmTextBorder where
  borderType : BorderTypeCode
  size : Nat
  space : Nat
  color : String
  deriving DecidableEq, Repr

/-- Modelled from the spec: the run-property part of the wasm run record;
each chained property setter of index.ts corresponds to one field. -/
structure WasmRunProperty where
  size : Option Nat := none
  color : Option String := none
  highlight : Option String := none
  vertAlign : Option VertAlignCode := none
  bold : Bool := false
  italic : Bool := false
  underline : Option String := none
  vanish : Bool := false
  spacing : Option Int := none
  textBorder : Option WasmTextBorder := none
  fonts : Option WasmRunFonts := none
  deriving DecidableEq, Repr

/-- Modelled from the spec: the wasm run record built by `wasm.createRun()`:
the children appended by the `add_*` methods plus the property record the
chained setters fill. -/
structure WasmRun where
  children : List WasmRunChild := []
  property : WasmRunProperty := {}
  deriving DecidableEq, Repr

/-- Embedding of `buildRunFonts` (index.ts lines 203-218): starts from
`wasm.createRunFonts()` and sets each of the four slots when the JS field is
truthy. -/
def buildRunFonts (fonts : Option RunFonts) : WasmRunFonts :=
  let f : WasmRunFonts := {}
  let f := if strTruthy (fonts.bind (·._ascii)) then
    { f with ascii := fonts.bind (·._ascii) } else f
  let f := if strTruthy (fonts.bind (·._hiAnsi)) then
    { f with hiAnsi := fonts.bind (·._hiAnsi) } else f
  let f := if strTruthy (fonts.bind (·._cs)) then
    { f with cs := fonts.bind (·._cs) } else f
  if strTruthy (fonts.bind (·._eastAsia)) then
    { f with eastAsia := fonts.bind (·._eastAsia) } else f

/-- Embedding of the per-child branch of the `forEach` loop in `buildRun`
(index.ts lines 222-238). A `Break` child whose `type` is not `"column"`,
`"page"` or `"textWrapping"` falls through every branch and appends
nothing, hence `none`. -/
def buildRunChild : RunChild → Option WasmRunChild
  | .text s => some (.text s)
  | .deleteText s => some (.deleteText s)
  | .tab => some .tab
  | .breakChild ty =>
    if ty = "column" then some (.breakChild .Column)
    else if ty = "page" then some (.breakChild .Page)
    else if ty = "textWrapping" then some (.breakChild .TextWrapping)
    else none

/-- Embedding of the property-setting tail of `buildRun` (index.ts lines
240-287): each guarded chained setter becomes one conditional field update,
and `run.fonts(...)` is applied unconditionally at the end. -/
def translateRunProperty (p : RunProperty) : WasmRunProperty :=
  let run : WasmRunProperty := {}
  let run := if p.size.isSome then { run with size := p.size } else run
  let run := if strTruthy p.color then { run with color := p.color } else run
  let run := if strTruthy p.highlight then { run with highlight := p.highlight } else run
  let run := if strTruthy p.vertAlign then
    (if p.vertAlign = some "superscript" then { run with vertAlign := some .SuperScript }
     else if p.vertAlign = some "subscript" then { run with vertAlign := some .SubScript }
     else run)
    else run
  let run := if p.bold then { run with bold := true } else run
  let run := if p.italic then { run with italic := true } else run
  let run := if strTruthy p.underline then { run with underline := p.underline } else run
  let run := if p.vanish then { run with vanish := true } else run
  let run := if p.spacing.isSome then { run with spacing := p.spacing } else run
  let run := match p.textBorder with
    | some tb =>
      { run with textBorder := some (WasmTextBorder.mk (convertBorderType tb.borderType) tb.size tb.space tb.color) }
    | none => run
  { run with fonts := some (buildRunFonts p.fonts) }

/-- Embedding of `buildRun` (index.ts lines 220-289): the `forEach` loop
appends the translation of each child in order (children with no matching
branch append nothing), then the guarded property setters fire. -/
def buildRun (r : Run) : WasmRun :=
  { children := r.children.filterMap buildRunChild,
    property := translateRunProperty r.property }

/-! ## JS model: paragraph / table tree

The class files paragraph.ts, insert.ts, delete.ts, comment.ts, table.ts,
table-row.ts, table-cell.ts, table-cell-border.ts, table-cell-borders.ts are
not under `src/`; their shapes are modelled from the fields `index.ts` reads
and from the data model of the specification (§3). -/

/-- Modelled from the spec: the special-indent part of a paragraph indent
(read by `buildParagraph` as `specialIndentKind` / `specialIndentSize`). -/
structure Indent where
  left : Int
  specialIndentKind : Option String := none
  specialIndentSize : Option Nat := none
  deriving DecidableEq, Repr

/-- Modelled from the spec: the line-spacing record of paragraph.ts, read by
`buildParagraph` as `{before, after, line, lineRule}`. -/
structure LineSpacing where
  before : Option Nat := none
  after : Option Nat := none
  line : Option Nat := none
  lineRule : Option String := none
  deriving DecidableEq, Repr

/-- Modelled from the spec: the paragraph numbering reference `{id, level}`
(§3: a paragraph property may carry a numbering reference). -/
structure NumberingRef where
  id : Nat
  level : Nat
  deriving DecidableEq, Repr

/-- Modelled from the spec: `ParagraphProperty` of paragraph.ts (not under
src/), holding the fields `buildParagraph` reads. -/
structure ParagraphProperty where
  align : Option String := none
  indent : Option Indent := none
  numbering : Option NumberingRef := none
  styleId : Option String := none
  runProperty : RunProperty := {}
  lineSpacing : Option LineSpacing := none
  keepLines : Bool := false
  keepNext : Bool := false
  pageBreakBefore : Bool := false
  windowControl : Bool := false
  deriving DecidableEq, Repr

/-- Modelled from the spec: `Insert` of insert.ts (not under src/): one run
plus optional author/date, read by `buildInsert`. -/
structure Insert where
  run : Run
  _author : Option String := none
  _date : Option String := none
  deriving DecidableEq, Repr

/-- Modelled from the spec: `Delete` of delete.ts (not under src/): one run
plus optional author/date, read by `buildDelete`. -/
structure Delete where
  run : Run
  _author : Option String := none
  _date : Option String := none
  deriving DecidableEq, Repr

/-- Modelled from the spec: a single table-cell border of
table-cell-border.ts (not under src/). Its constructor takes the edge
position; `buildCellBorders` reads `_size`, `_color`, `_border_type`. -/
structure TableCellBorder where
  position : String
  _size : Nat := 2
  _color : String := "000000"
  _border_type : String := "single"
  deriving DecidableEq, Repr

/-- Modelled from the spec: the eight independent edge slots of
table-cell-borders.ts (§3: per-edge borders
{top,right,bottom,left,insideH,insideV,tl2br,tr2bl}). -/
structure TableCellBorders where
  top : Option TableCellBorder := none
  right : Option TableCellBorder := none
  bottom : Option TableCellBorder := none
  left : Option TableCellBorder := none
  insideH : Option TableCellBorder := none
  insideV : Option TableCellBorder := none
  tl2br : Option TableCellBorder := none
  tr2bl : Option TableCellBorder := none
  deriving DecidableEq, Repr

/-- Modelled from the spec: `TableCell.setBorder` of table-cell.ts (not
under src/) stores the given border in the edge slot named by its
`position`; each slot is independent. -/
def setBorder (b : TableCellBorders) (border : TableCellBorder) : TableCellBorders :=
  if border.position = "top" then { b with top := some border }
  else if border.position = "right" then { b with right := some border }
  else if border.position = "bottom" then { b with bottom := some border }
  else if border.position = "left" then { b with left := some border }
  else if border.position = "insideH" then { b with insideH := some border }
  else if border.position = "insideV" then { b with insideV := some border }
  else if border.position = "tl2br" then { b with tl2br := some border }
  else if border.position = "tr2bl" then { b with tr2bl := some border }
  else b

/-- Modelled from the spec: the cell shading record, read by `buildCell` as
`_type`, `_color`, `_fill`. -/
structure Shading where
  _type : String
  _color : String
  _fill : String
  deriving DecidableEq, Repr

/-- Modelled from the spec: `CellProperty` of table-cell.ts (not under
src/), holding the fields `buildCell` reads. -/
structure CellProperty where
  verticalMerge : Option String := none
  verticalAlign : Option String := none
  gridSpan : Option Nat := none
  width : Option Nat := none
  textDirection : Option String := none
  borders : Option TableCellBorders := none
  shading : Option Shading := none
  deriving DecidableEq, Repr

/-- Modelled from the spec: one cell margin `{val, type}` of
table-property, read by `buildTable`. -/
structure CellMargin where
  val : Nat
  ty : String
  deriving DecidableEq, Repr

/-- Modelled from the spec: the four cell margins of the table property. -/
structure CellMargins where
  top : CellMargin
  right : CellMargin
  bottom : CellMargin
  left : CellMargin
  deriving DecidableEq, Repr

/-- Modelled from the spec: `TableProperty` of table.ts (not under src/),
holding the fields `buildTable` reads. -/
structure TableProperty where
  indent : Option Int := none
  cellMargins : Option CellMargins := none
  align : Option String := none
  layout : Option String := none
  deriving DecidableEq, Repr

mutual

/-- Modelled from the spec: `Paragraph` of paragraph.ts (not under src/):
ordered children plus a `ParagraphProperty` (§3). -/
inductive Paragraph where
  | mk (children : List ParagraphChild) (property : ParagraphProperty)

/-- Modelled from the spec: the child nodes a Paragraph owns (§3: Run |
Insert | Delete | BookmarkStart/End | CommentStart | CommentEnd). -/
inductive ParagraphChild where
  | run (r : Run)
  | insert (i : Insert)
  | del (d : Delete)
  | bookmarkStart (id : Nat) (name : String)
  | bookmarkEnd (id : Nat)
  | comment (c : Comment)
  | commentEnd (id : Nat)

/-- Modelled from the spec: `Comment` of comment.ts (not under src/):
id, ordered Paragraph/Table children, author, date, optional
parentCommentId (§3). -/
inductive Comment where
  | mk (id : Nat) (children : List CommentChild)
    (_author : Option String) (_date : Option String)
    (_parentCommentId : Option Nat)

/-- Modelled from the spec: a child of a Comment (§3: Paragraph | Table). -/
inductive CommentChild where
  | paragraph (p : Paragraph)
  | table (t : Table)

/-- Modelled from the spec: `Table` of table.ts (not under src/): ordered
rows, a grid of column widths and a `TableProperty` (§3). -/
inductive Table where
  | mk (rows : List TableRow) (grid : List Nat) (property : TableProperty)

/-- Modelled from the spec: `TableRow` of table-row.ts (not under src/):
ordered cells plus optional height and height-rule (§3). -/
inductive TableRow where
  | mk (cells : List TableCell) (height : Option Nat) (hRule : Option String)

/-- Modelled from the spec: `TableCell` of table-cell.ts (not under src/):
ordered Paragraph/Table children plus a `CellProperty` (§3). -/
inductive TableCell where
  | mk (children : List TableCellChild) (property : CellProperty)

/-- Modelled from the spec: a child of a TableCell (§3: Paragraph | Table,
nesting permitted to arbitrary depth). -/
inductive TableCellChild where
  | paragraph (p : Paragraph)
  | table (t : Table)

end

/-- Children of a paragraph. -/
def Paragraph.children : Paragraph → List ParagraphChild
  | .mk cs _ => cs

/-- Property of a paragraph. -/
def Paragraph.property : Paragraph → ParagraphProperty
  | .mk _ p => p

/-- Rows of a table. -/
def Table.rows : Table → List TableRow
  | .mk rs _ _ => rs

/-- Grid of a table. -/
def Table.grid : Table → List Nat
  | .mk _ g _ => g

/-- Property of a table. -/
def Table.property : Table → TableProperty
  | .mk _ _ p => p

/-- Cells of a row. -/
def TableRow.cells : TableRow → List TableCell
  | .mk cs _ _ => cs

/-- Height of a row. -/
def TableRow.height : TableRow → Option Nat
  | .mk _ h _ => h

/-- Height rule of a row. -/
def TableRow.hRule : TableRow → Option String
  | .mk _ _ r => r

/-- Children of a cell. -/
def TableCell.children : TableCell → List TableCellChild
  | .mk cs _ => cs

/-- Property of a cell. -/
def TableCell.property : TableCell → CellProperty
  | .mk _ p => p

/-- Modelled from the spec: `Paragraph.hasNumberings` of paragraph.ts (not
under src/) is set exactly when the paragraph was given a numbering
reference. -/
def Paragraph.hasNumberings (p : Paragraph) : Bool :=
  p.property.numbering.isSome

mutual

/-- Modelled from the spec: `Table.hasNumberings` of table.ts (not under
src/) is set when any paragraph contained (at any nesting depth) in the
table uses numbering. -/
def Table.hasNumberings : Table → Bool
  | .mk rows _ _ => rowsHaveNumberings rows

/-- Helper for `Table.hasNumberings`: any cell of any row. -/
def rowsHaveNumberings : List TableRow → Bool
  | [] => false
  | .mk cells _ _ :: rest => cellsHaveNumberings cells || rowsHaveNumberings rest

/-- Helper for `Table.hasNumberings`: any child of any cell. -/
def cellsHaveNumberings : List TableCell → Bool
  | [] => false
  | .mk children _ :: rest =>
    cellChildrenHaveNumberings children || cellsHaveNumberings rest

/-- Helper for `Table.hasNumberings`: a paragraph child counts through its
own flag, a nested table recursively. -/
def cellChildrenHaveNumberings : List TableCellChild → Bool
  | [] => false
  | .paragraph p :: rest => p.hasNumberings || cellChildrenHaveNumberings rest
  | .table t :: rest => t.hasNumberings || cellChildrenHaveNumberings rest

end

/-! ## Wasm model: paragraph / table tree

The wasm tree builders (`wasm.createParagraph()`, `wasm.createTable()`, ...)
live in the Rust core, not under `src/`. They are modelled from the spec as
records; every chained setter used by index.ts is one field update, and
every `add_*` call appends to a children list. -/

/-- Embedding of the wasm `AlignmentType` enum. -/
inductive AlignmentCode where
  | Center | Right | Justified | Left | Distribute | Both | End
  deriving DecidableEq, Repr

/-- Embedding of the wasm `SpecialIndentKind` enum. -/
inductive SpecialIndentKindCode where
  | FirstLine | Hanging
  deriving DecidableEq, Repr

/-- Embedding of the wasm `LineSpacingType` enum. -/
inductive LineSpacingCode where
  | AtLeast | Auto | Exact
  deriving DecidableEq, Repr

/-- Embedding of the wasm `TableAlignmentType` enum. -/
inductive TableAlignmentCode where
  | Center | Right | Left
  deriving DecidableEq, Repr

/-- Embedding of the wasm `TableLayoutType` enum. -/
inductive TableLayoutCode where
  | Fixed | Autofit
  deriving DecidableEq, Repr

/-- Embedding of the wasm `HeightRule` enum. -/
inductive HeightRuleCode where
  | Auto | AtLeast | Exact
  deriving DecidableEq, Repr

/-- Embedding of the wasm `VMergeType` enum. -/
inductive VMergeCode where
  | Continue | Restart
  deriving DecidableEq, Repr

/-- Embedding of the wasm `VAlignType` enum. -/
inductive VAlignCode where
  | Top | Center | Bottom
  deriving DecidableEq, Repr

/-- Embedding of the wasm `TableCellBorderPosition` enum. -/
inductive CellBorderPositionCode where
  | Top | Right | Bottom | Left | InsideH | InsideV | Tl2br | Tr2bl
  deriving DecidableEq, Repr

/-- Modelled from the spec: `toTextDirectionWasmType` of table-cell.ts (not
under src/) maps the text-direction literal to its wasm code; the concrete
code table is irrelevant to every claim, so the literal itself is kept as
the code. -/
def toTextDirectionWasmType (s : String) : String := s

/-- Modelled from the spec: the wasm table-cell border built by
`wasm.createTableCellBorder(position)` with its `size`/`color`/`border_type`
setters. -/
structure WasmCellBorder where
  position : CellBorderPositionCode
  size : Nat := 2
  color : String := "000000"
  borderType : BorderTypeCode := .Single
  deriving DecidableEq, Repr

/-- Modelled from the spec: the eight independent border slots of a wasm
table cell; `set_border` fills exactly the slot named by the border's
position (§3, Scenario C). -/
structure WasmCellBorderSlots where
  top : Option WasmCellBorder := none
  right : Option WasmCellBorder := none
  bottom : Option WasmCellBorder := none
  left : Option WasmCellBorder := none
  insideH : Option WasmCellBorder := none
  insideV : Option WasmCellBorder := none
  tl2br : Option WasmCellBorder := none
  tr2bl : Option WasmCellBorder := none
  deriving DecidableEq, Repr

/-- Modelled from the spec: the wasm paragraph property record; one field
per chained setter used by `buildParagraph`. -/
structure WasmParagraphProperty where
  align : Option AlignmentCode := none
  indent : Option (Int × Option SpecialIndentKindCode × Option Nat) := none
  numbering : Option (Nat × Nat) := none
  style : Option String := none
  bold : Bool := false
  italic : Bool := false
  size : Option Nat := none
  fonts : Option WasmRunFonts := none
  lineSpacing : Option (Option Nat × Option Nat × Option Nat × Option LineSpacingCode) := none
  keepLines : Bool := false
  keepNext : Bool := false
  pageBreakBefore : Bool := false
  windowControl : Bool := false
  deriving DecidableEq, Repr

/-- Modelled from the spec: the wasm insert record built by
`wasm.createInsert(run)` with `author`/`date` setters. -/
structure WasmInsert where
  run : WasmRun
  author : Option String := none
  date : Option String := none
  deriving DecidableEq, Repr

/-- Modelled from the spec: the wasm delete record built by
`wasm.createDelete(run)` with `author`/`date` setters. -/
structure WasmDelete where
  run : WasmRun
  author : Option String := none
  date : Option String := none
  deriving DecidableEq, Repr

/-- Modelled from the spec: the wasm table properties; one field per
chained setter used by `buildTable`. -/
structure WasmTableProperty where
  indent : Int := 0
  cellMarginTop : Option (Nat × WidthTypeCode) := none
  cellMarginRight : Option (Nat × WidthTypeCode) := none
  cellMarginBottom : Option (Nat × WidthTypeCode) := none
  cellMarginLeft : Option (Nat × WidthTypeCode) := none
  align : Option TableAlignmentCode := none
  layout : Option TableLayoutCode := none
  deriving DecidableEq, Repr

/-- Modelled from the spec: the wasm cell properties; one field per
chained setter used by `buildCell`. -/
structure WasmCellProperty where
  verticalMerge : Option VMergeCode := none
  verticalAlign : Option VAlignCode := none
  gridSpan : Option Nat := none
  width : Option Nat := none
  textDirection : Option String := none
  borders : WasmCellBorderSlots := {}
  shading : Option (String × String × String) := none
  deriving DecidableEq, Repr

mutual

/-- Modelled from the spec: a child of a wasm paragraph, appended by the
paragraph's `add_run`/`add_insert`/`add_delete`/`add_bookmark_start`/
`add_bookmark_end`/`add_comment_start`/`add_comment_end` methods. -/
inductive WasmParagraphChild where
  | run (r : WasmRun)
  | insert (i : WasmInsert)
  | del (d : WasmDelete)
  | bookmarkStart (id : Nat) (name : String)
  | bookmarkEnd (id : Nat)
  | commentStart (c : WasmComment)
  | commentEnd (id : Nat)

/-- Modelled from the spec: the wasm comment built by
`wasm.createComment(id)`: paragraph children plus author, date and the
threading parent id (§3, Comment). -/
inductive WasmComment where
  | mk (id : Nat) (children : List WasmParagraph)
    (author : Option String) (date : Option String)
    (parentCommentId : Option Nat)

/-- Modelled from the spec: the wasm paragraph built by
`wasm.createParagraph()`: ordered children plus a property record. -/
inductive WasmParagraph where
  | mk (children : List WasmParagraphChild) (property : WasmParagraphProperty)

/-- Modelled from the spec: the wasm table built by `wasm.createTable()`:
ordered rows, a grid and a property record. -/
inductive WasmTable where
  | mk (rows : List WasmTableRow) (grid : List Nat) (property : WasmTableProperty)

/-- Modelled from the spec: the wasm table row built by
`wasm.createTableRow()`: ordered cells plus optional height and rule. -/
inductive WasmTableRow where
  | mk (cells : List WasmTableCell) (height : Option Nat) (hRule : Option HeightRuleCode)

/-- Modelled from the spec: the wasm table cell built by
`wasm.createTableCell()`: ordered children plus a property record. -/
inductive WasmTableCell where
  | mk (children : List WasmCellChild) (property : WasmCellProperty)

/-- Modelled from the spec: a child of a wasm cell, appended by
`add_paragraph` / `add_table`. -/
inductive WasmCellChild where
  | paragraph (p : WasmParagraph)
  | table (t : WasmTable)

end

/-- Children of a wasm paragraph. -/
def WasmParagraph.children : WasmParagraph → List WasmParagraphChild
  | .mk cs _ => cs

/-- Property of a wasm paragraph. -/
def WasmParagraph.property : WasmParagraph → WasmParagraphProperty
  | .mk _ p => p

/-- Rows of a wasm table. -/
def WasmTable.rows : WasmTable → List WasmTableRow
  | .mk rs _ _ => rs

/-- Grid of a wasm table. -/
def WasmTable.grid : WasmTable → List Nat
  | .mk _ g _ => g

/-- Property of a wasm table. -/
def WasmTable.property : WasmTable → WasmTableProperty
  | .mk _ _ p => p

/-- Children of a wasm cell. -/
def WasmTableCell.children : WasmTableCell → List WasmCellChild
  | .mk cs _ => cs

/-- Property of a wasm cell. -/
def WasmTableCell.property : WasmTableCell → WasmCellProperty
  | .mk _ p => p

/-- Modelled from the spec: `wasm.TableCell.set_border` stores the border
in the slot selected by its position, leaving the other seven slots
untouched (§3, Scenario C: independent edge slots). -/
def WasmTableCell.set_border (cell : WasmTableCell) (b : WasmCellBorder) : WasmTableCell :=
  match cell with
  | .mk cs prop =>
    let slots := prop.borders
    let slots := match b.position with
      | .Top => { slots with top := some b }
      | .Right => { slots with right := some b }
      | .Bottom => { slots with bottom := some b }
      | .Left => { slots with left := some b }
      | .InsideH => { slots with insideH := some b }
      | .InsideV => { slots with insideV := some b }
      | .Tl2br => { slots with tl2br := some b }
      | .Tr2bl => { slots with tr2bl := some b }
    .mk cs { prop with borders := slots }

/-! ## Build functions (index.ts lines 291-754) -/

/-- Embedding of `buildInsert` (index.ts lines 291-301). -/
def buildInsert (i : Insert) : WasmInsert :=
  let ins : WasmInsert := { run := buildRun i.run }
  let ins := if strTruthy i._author then { ins with author := i._author } else ins
  if strTruthy i._date then { ins with date := i._date } else ins

/-- Embedding of `buildDelete` (index.ts lines 303-313). -/
def buildDelete (d : Delete) : WasmDelete :=
  let del : WasmDelete := { run := buildRun d.run }
  let del := if strTruthy d._author then { del with author := d._author } else del
  if strTruthy d._date then { del with date := d._date } else del

/-- Embedding of the property-setting tail of `buildParagraph` (index.ts
lines 360-479): each guarded chained setter becomes one conditional field
update. The inline font construction at lines 448-462 repeats
`buildRunFonts` verbatim on a present fonts object, so it is rendered
through `buildRunFonts`. -/
def translateParagraphProperty (p : ParagraphProperty) : WasmParagraphProperty :=
  let w : WasmParagraphProperty := {}
  let w :=
    if p.align = some "center" then { w with align := some AlignmentCode.Center }
    else if p.align = some "right" then { w with align := some AlignmentCode.Right }
    else if p.align = some "justified" then { w with align := some AlignmentCode.Justified }
    else if p.align = some "left" then { w with align := some AlignmentCode.Left }
    else if p.align = some "distribute" then { w with align := some AlignmentCode.Distribute }
    else if p.align = some "both" then { w with align := some AlignmentCode.Both }
    else if p.align = some "end" then { w with align := some AlignmentCode.End }
    else w
  let w := match p.indent with
    | some ind =>
      let kind :=
        if ind.specialIndentKind = some "firstLine" then some SpecialIndentKindCode.FirstLine
        else if ind.specialIndentKind = some "hanging" then some SpecialIndentKindCode.Hanging
        else none
      { w with indent := some (ind.left, kind, ind.specialIndentSize) }
    | none => w
  let w := match p.numbering with
    | some n => { w with numbering := some (n.id, n.level) }
    | none => w
  let w := if p.styleId.isSome then { w with style := p.styleId } else w
  let w := if p.runProperty.bold then { w with bold := true } else w
  let w := match p.lineSpacing with
    | some ls =>
      let kind :=
        if ls.lineRule = some "atLeast" then some LineSpacingCode.AtLeast
        else if ls.lineRule = some "auto" then some LineSpacingCode.Auto
        else if ls.lineRule = some "exact" then some LineSpacingCode.Exact
        else none
      { w with lineSpacing := some (ls.before, ls.after, ls.line, kind) }
    | none => w
  let w := if p.runProperty.italic then { w with italic := true } else w
  let w := if natTruthy p.runProperty.size then { w with size := p.runProperty.size } else w
  let w := if p.runProperty.fonts.isSome then
    { w with fonts := some (buildRunFonts p.runProperty.fonts) } else w
  let w := if p.keepLines then { w with keepLines := true } else w
  let w := if p.keepNext then { w with keepNext := true } else w
  let w := if p.pageBreakBefore then { w with pageBreakBefore := true } else w
  if p.windowControl then { w with windowControl := true } else w

/-- One guarded block of `buildCellBorders` (index.ts lines 618-698): when
the JS borders object carries a border for this edge, create the wasm
border at that position with the JS border's size, color and converted
border type, and `set_border` it; otherwise leave the cell unchanged. -/
def applyBorderSlot (pos : CellBorderPositionCode) (o : Option TableCellBorder)
    (cell : WasmTableCell) : WasmTableCell :=
  match o with
  | some b => cell.set_border
      { position := pos, size := b._size, color := b._color,
        borderType := convertBorderType b._border_type }
  | none => cell

/-- Embedding of `buildCellBorders` (index.ts lines 618-698): eight
independent guarded `set_border` calls — one `applyBorderSlot` per edge
slot of the JS borders object, in source order. -/
def buildCellBorders (js : TableCell) (cell : WasmTableCell) : WasmTableCell :=
  let bs := js.property.borders.getD {}
  let cell := applyBorderSlot .Top bs.top cell
  let cell := applyBorderSlot .Right bs.right cell
  let cell := applyBorderSlot .Bottom bs.bottom cell
  let cell := applyBorderSlot .Left bs.left cell
  let cell := applyBorderSlot .InsideH bs.insideH cell
  let cell := applyBorderSlot .InsideV bs.insideV cell
  let cell := applyBorderSlot .Tl2br bs.tl2br cell
  applyBorderSlot .Tr2bl bs.tr2bl cell

/-- Embedding of the property-setting tail of `buildCell` (index.ts lines
568-615, excluding the borders step which is `buildCellBorders`). -/
def translateCellProperty (p : CellProperty) : WasmCellProperty :=
  let w : WasmCellProperty := {}
  let w :=
    if p.verticalMerge = some "continue" then { w with verticalMerge := some VMergeCode.Continue }
    else if p.verticalMerge = some "restart" then { w with verticalMerge := some VMergeCode.Restart }
    else w
  let w :=
    if p.verticalAlign = some "top" then { w with verticalAlign := some VAlignCode.Top }
    else if p.verticalAlign = some "center" then { w with verticalAlign := some VAlignCode.Center }
    else if p.verticalAlign = some "bottom" then { w with verticalAlign := some VAlignCode.Bottom }
    else w
  let w := if p.gridSpan.isSome then { w with gridSpan := p.gridSpan } else w
  let w := if p.width.isSome then { w with width := p.width } else w
  let w := match p.textDirection with
    | some td => { w with textDirection := some (toTextDirectionWasmType td) }
    | none => w
  match p.shading with
    | some sh => { w with shading := some (sh._type, sh._color, sh._fill) }
    | none => w

/-- Embedding of the height / height-rule tail of the row loop in
`buildTable` (index.ts lines 493-512). -/
def translateRowExtras (r : TableRow) (cells : List WasmTableCell) : WasmTableRow :=
  let height := if natTruthy r.height then r.height else none
  let hRule :=
    if strTruthy r.hRule then
      (if r.hRule = some "auto" then some HeightRuleCode.Auto
       else if r.hRule = some "atLeast" then some HeightRuleCode.AtLeast
       else if r.hRule = some "exact" then some HeightRuleCode.Exact
       else none)
    else none
  .mk cells height hRule

/-- Embedding of the property-setting tail of `buildTable` (index.ts lines
515-553): grid, indent (`t.property.indent || 0`), cell margins, alignment
and layout. -/
def translateTableExtras (t : Table) (rows : List WasmTableRow) : WasmTable :=
  let w : WasmTableProperty := { indent := t.property.indent.getD 0 }
  let w := match t.property.cellMargins with
    | some m =>
      { w with
        cellMarginTop := some (m.top.val, convertWidthType m.top.ty),
        cellMarginRight := some (m.right.val, convertWidthType m.right.ty),
        cellMarginBottom := some (m.bottom.val, convertWidthType m.bottom.ty),
        cellMarginLeft := some (m.left.val, convertWidthType m.left.ty) }
    | none => w
  let w :=
    if t.property.align = some "center" then { w with align := some TableAlignmentCode.Center }
    else if t.property.align = some "right" then { w with align := some TableAlignmentCode.Right }
    else if t.property.align = some "left" then { w with align := some TableAlignmentCode.Left }
    else w
  let w :=
    if t.property.layout = some "fixed" then { w with layout := some TableLayoutCode.Fixed }
    else if t.property.layout = some "autofit" then { w with layout := some TableLayoutCode.Autofit }
    else w
  .mk rows t.grid w

mutual

/-- Embedding of `buildParagraph` (index.ts lines 336-482): the `forEach`
loop appends the translation of each child in order, then the guarded
property setters fire. -/
def buildParagraph : Paragraph → WasmParagraph
  | .mk children prop => .mk (buildParagraphChildren children) (translateParagraphProperty prop)

/-- The child loop of `buildParagraph` (index.ts lines 338-358). -/
def buildParagraphChildren : List ParagraphChild → List WasmParagraphChild
  | [] => []
  | .run r :: rest => .run (buildRun r) :: buildParagraphChildren rest
  | .insert i :: rest => .insert (buildInsert i) :: buildParagraphChildren rest
  | .del d :: rest => .del (buildDelete d) :: buildParagraphChildren rest
  | .bookmarkStart id name :: rest => .bookmarkStart id name :: buildParagraphChildren rest
  | .bookmarkEnd id :: rest => .bookmarkEnd id :: buildParagraphChildren rest
  | .comment c :: rest => .commentStart (buildComment c) :: buildParagraphChildren rest
  | .commentEnd id :: rest => .commentEnd id :: buildParagraphChildren rest

/-- Embedding of `buildComment` (index.ts lines 315-334). -/
def buildComment : Comment → WasmComment
  | .mk id children author date parentId =>
    .mk id (buildCommentChildren children)
      (if strTruthy author then author else none)
      (if strTruthy date then date else none)
      (if natTruthy parentId then parentId else none)

/-- The child loop of `buildComment` (index.ts lines 317-323): paragraph
children are built; table children hit an empty `TODO` branch and are
dropped. -/
def buildCommentChildren : List CommentChild → List WasmParagraph
  | [] => []
  | .paragraph p :: rest => buildParagraph p :: buildCommentChildren rest
  | .table _ :: rest => buildCommentChildren rest

/-- Embedding of `buildTable` (index.ts lines 484-554). -/
def buildTable : Table → WasmTable
  | .mk rows grid prop => translateTableExtras (.mk rows grid prop) (buildTableRows rows)

/-- The row loop of `buildTable` (index.ts lines 486-514). -/
def buildTableRows : List TableRow → List WasmTableRow
  | [] => []
  | .mk cells height hRule :: rest =>
    translateRowExtras (.mk cells height hRule) (buildRowCells cells) :: buildTableRows rest

/-- The cell loop inside each row of `buildTable` (index.ts lines 488-491). -/
def buildRowCells : List TableCell → List WasmTableCell
  | [] => []
  | c :: rest => buildCell c :: buildRowCells rest

/-- Embedding of `buildCell` (index.ts lines 556-616): the child loop, the
guarded property setters, and the guarded `buildCellBorders` step. -/
def buildCell : TableCell → WasmTableCell
  | .mk children prop =>
    let cell : WasmTableCell := .mk (buildCellChildren children) (translateCellProperty prop)
    if prop.borders.isSome then buildCellBorders (.mk children prop) cell else cell

/-- The child loop of `buildCell` (index.ts lines 558-566). -/
def buildCellChildren : List TableCellChild → List WasmCellChild
  | [] => []
  | .paragraph p :: rest => .paragraph (buildParagraph p) :: buildCellChildren rest
  | .table t :: rest => .table (buildTable t) :: buildCellChildren rest

end

/-! ## Numbering model (level.ts, abstract-numbering.ts, numbering.ts are
not under src/; shapes modelled from the fields index.ts reads and §3). -/

/-- JS truthiness of an optional integer field (`if (x)`). -/
def intTruthy : Option Int → Bool
  | some n => n != 0
  | none => false

/-- Modelled from the spec: `Level` of level.ts (not under src/): level
index (`id`), start value, format, text pattern, justification, suffix and
run / paragraph property subsets (§3). -/
structure Level where
  id : Nat
  start : Nat
  format : String
  text : String
  jc : String
  levelSuffix : Option String := none
  runProperty : RunProperty := {}
  paragraphProperty : ParagraphProperty := {}
  deriving DecidableEq, Repr

/-- Modelled from the spec: the level index accessor used by the override
branch of `createDocx` (`o.levelOverride.level`); level.ts is not under
src/, and the level index of a `Level` is its `id`. -/
def Level.level (l : Level) : Nat := l.id

/-- Modelled from the spec: `LevelOverride` of numbering.ts (not under
src/): one overridden level index, optionally a replacement start value
and/or a replacement `Level` definition (§3). -/
structure LevelOverride where
  level : Nat
  startOverride : Option Nat := none
  levelOverride : Option Level := none
  deriving DecidableEq, Repr

/-- Modelled from the spec: `AbstractNumbering` of abstract-numbering.ts
(not under src/): id plus ordered levels (§3). -/
structure AbstractNumbering where
  id : Nat
  levels : List Level := []
  deriving DecidableEq, Repr

/-- Modelled from the spec: `Numbering` of numbering.ts (not under src/):
id, the referenced abstract numbering id, and the override set (§3). -/
structure Numbering where
  id : Nat
  abstractNumId : Nat
  overrides : List LevelOverride := []
  deriving DecidableEq, Repr

/-- Embedding of the wasm `LevelSuffixType` enum. -/
inductive LevelSuffixCode where
  | Nothing | Space | Tab
  deriving DecidableEq, Repr

/-- Modelled from the spec: the wasm level record built by
`wasm.createLevel(id, start, format, text, jc)` plus its chained setters. -/
structure WasmLevel where
  id : Nat
  start : Nat
  format : String
  text : String
  jc : String
  suffix : LevelSuffixCode := .Tab
  bold : Bool := false
  italic : Bool := false
  size : Option Nat := none
  fonts : Option WasmRunFonts := none
  indent : Option (Int × Option SpecialIndentKindCode × Option Nat) := none
  deriving DecidableEq, Repr

/-- Modelled from the spec: the wasm level override built by
`wasm.createLevelOverride(level)` plus its `start`/`level` setters. -/
structure WasmLevelOverride where
  level : Nat
  start : Option Nat := none
  levelInstance : Option WasmLevel := none
  deriving DecidableEq, Repr

/-- Modelled from the spec: the wasm abstract numbering built by
`wasm.createAbstractNumbering(id)`; `add_level` appends in order. -/
structure WasmAbstractNumbering where
  id : Nat
  levels : List WasmLevel := []
  deriving DecidableEq, Repr

/-- Modelled from the spec: the wasm numbering built by
`wasm.createNumbering(id, abstractNumId)`; `add_override` appends in
order. -/
structure WasmNumbering where
  id : Nat
  abstractNumId : Nat
  overrides : List WasmLevelOverride := []
  deriving DecidableEq, Repr

/-- Embedding of `buildLevel` (index.ts lines 700-754): `createLevel` with
the five leading fields, then the suffix (always set: `nothing` / `space` /
otherwise `Tab`), the guarded run-property setters and the guarded
indent. -/
def buildLevel (l : Level) : WasmLevel :=
  let w : WasmLevel := { id := l.id, start := l.start, format := l.format,
                         text := l.text, jc := l.jc }
  let w :=
    if l.levelSuffix = some "nothing" then { w with suffix := .Nothing }
    else if l.levelSuffix = some "space" then { w with suffix := .Space }
    else { w with suffix := .Tab }
  let w := if l.runProperty.bold then { w with bold := true } else w
  let w := if l.runProperty.italic then { w with italic := true } else w
  let w := if natTruthy l.runProperty.size then { w with size := l.runProperty.size } else w
  let w := if l.runProperty.fonts.isSome then
    { w with fonts := some (buildRunFonts l.runProperty.fonts) } else w
  match l.paragraphProperty.indent with
  | some ind =>
    let kind :=
      if ind.specialIndentKind = some "firstLine" then some SpecialIndentKindCode.FirstLine
      else if ind.specialIndentKind = some "hanging" then some SpecialIndentKindCode.Hanging
      else none
    { w with indent := some (ind.left, kind, ind.specialIndentSize) }
  | none => w

/-- Embedding of the abstract-numbering loop of `createDocx` (index.ts
lines 773-780): each level is built and appended in order. -/
def buildAbstractNumbering (n : AbstractNumbering) : WasmAbstractNumbering :=
  { id := n.id, levels := n.levels.map buildLevel }

/-- Embedding of one override of the numbering loop of `createDocx`
(index.ts lines 784-800): optional start override, optional replacement
level built by `createLevel` from the five leading fields only. -/
def buildOverride (o : LevelOverride) : WasmLevelOverride :=
  let w : WasmLevelOverride := { level := o.level }
  let w := if o.startOverride.isSome then { w with start := o.startOverride } else w
  match o.levelOverride with
  | some l =>
    { w with levelInstance := some { id := l.level, start := l.start, format := l.format,
                                     text := l.text, jc := l.jc } }
  | none => w

/-- Embedding of the numbering loop of `createDocx` (index.ts lines
782-802). -/
def buildNumbering (n : Numbering) : WasmNumbering :=
  { id := n.id, abstractNumId := n.abstractNumId,
    overrides := n.overrides.map buildOverride }

/-! ## Settings, doc props, styles, section property, web extensions

settings.ts, doc-props.ts, styles.ts, section-property.ts, webextension.ts
are not under src/; modelled from the fields index.ts reads and §3. -/

/-- Modelled from the spec: a document variable of settings.ts, read as
`v.name` / `v.val`. -/
structure DocVar where
  name : String
  val : String
  deriving DecidableEq, Repr

/-- Modelled from the spec: `Settings` of settings.ts (not under src/):
document id, default tab stop, document variables (§3). The numeric
default of `_defaultTabStop` lives in the missing file; the literal used
here (840) is immaterial to every claim. -/
structure Settings where
  _docId : Option String := none
  _defaultTabStop : Nat := 840
  _docVars : List DocVar := []
  deriving DecidableEq, Repr

/-- Modelled from the spec: `Settings.docId`. -/
def Settings.docId (s : Settings) (id : String) : Settings := { s with _docId := some id }

/-- Modelled from the spec: `Settings.defaultTabStop`. -/
def Settings.defaultTabStop (s : Settings) (stop : Nat) : Settings :=
  { s with _defaultTabStop := stop }

/-- Modelled from the spec: `Settings.addDocVar` appends. -/
def Settings.addDocVar (s : Settings) (name val : String) : Settings :=
  { s with _docVars := s._docVars ++ [⟨name, val⟩] }

/-- Insertion-order-preserving key update, the behaviour of assigning into
a JS object: an existing key keeps its position and takes the new value, a
new key is appended. -/
def upsert (l : List (String × String)) (k v : String) : List (String × String) :=
  if l.any (fun kv => kv.1 = k) then
    l.map (fun kv => if kv.1 = k then (k, v) else kv)
  else l ++ [(k, v)]

/-- Modelled from the spec: `DocProps` of doc-props.ts (not under src/):
created/updated timestamps and arbitrary custom properties (§3). -/
structure DocProps where
  _createdAt : Option String := none
  _updatedAt : Option String := none
  _customProperties : List (String × String) := []
  deriving DecidableEq, Repr

/-- Modelled from the spec: `DocProps.createdAt`. -/
def DocProps.createdAt (d : DocProps) (date : String) : DocProps :=
  { d with _createdAt := some date }

/-- Modelled from the spec: `DocProps.updatedAt`. -/
def DocProps.updatedAt (d : DocProps) (date : String) : DocProps :=
  { d with _updatedAt := some date }

/-- Modelled from the spec: `DocProps.customProperty` assigns into the
custom-properties object. -/
def DocProps.customProperty (d : DocProps) (name item : String) : DocProps :=
  { d with _customProperties := upsert d._customProperties name item }

/-- Modelled from the spec: the `docDefaults` of styles.ts (§3: default
run properties applied when no closer override exists). -/
structure DocDefaults where
  runProperty : RunProperty := {}
  deriving DecidableEq, Repr

/-- Modelled from the spec: `Styles` of styles.ts (not under src/). -/
structure Styles where
  docDefaults : DocDefaults := {}
  deriving DecidableEq, Repr

/-- Modelled from the spec: `Styles.defaultSize`. -/
def Styles.defaultSize (s : Styles) (size : Nat) : Styles :=
  { s with docDefaults := { s.docDefaults with
      runProperty := { s.docDefaults.runProperty with size := some size } } }

/-- Modelled from the spec: `Styles.defaultFonts`. -/
def Styles.defaultFonts (s : Styles) (fonts : RunFonts) : Styles :=
  { s with docDefaults := { s.docDefaults with
      runProperty := { s.docDefaults.runProperty with fonts := some fonts } } }

/-- Modelled from the spec: `Styles.defaultSpacing`. -/
def Styles.defaultSpacing (s : Styles) (spacing : Int) : Styles :=
  { s with docDefaults := { s.docDefaults with
      runProperty := { s.docDefaults.runProperty with spacing := some spacing } } }

/-- Modelled from the spec: the page margin record of section-property.ts
(§3: top/left/right/bottom/header/footer/gutter). -/
structure PageMargin where
  top : Int := 0
  left : Int := 0
  right : Int := 0
  bottom : Int := 0
  header : Int := 0
  footer : Int := 0
  gutter : Int := 0
  deriving DecidableEq, Repr

/-- Modelled from the spec: the page size record of section-property.ts
(width, height, orientation literal). -/
structure PageSizeRec where
  w : Nat
  h : Nat
  orient : Option String := none
  deriving DecidableEq, Repr

/-- Modelled from the spec: the document grid record of
section-property.ts (type, line pitch, char space). -/
structure DocGridRec where
  gridType : String
  linePitch : Option Nat := none
  charSpace : Option Nat := none
  deriving DecidableEq, Repr

/-- Modelled from the spec: `SectionProperty` of section-property.ts (not
under src/) (§3). -/
structure SectionProperty where
  _pageMargin : Option PageMargin := none
  _pageSize : Option PageSizeRec := none
  _docGrid : Option DocGridRec := none
  deriving DecidableEq, Repr

/-- Modelled from the spec: `SectionProperty.pageSize` stores the literal
width and height, preserving any orientation already set. -/
def SectionProperty.pageSize (sp : SectionProperty) (w h : Nat) : SectionProperty :=
  { sp with _pageSize := some (PageSizeRec.mk w h ((sp._pageSize.map (·.orient)).join)) }

/-- Modelled from the spec: `SectionProperty.pageMargin` merges the given
fields into the margin record; the merged result is supplied whole here. -/
def SectionProperty.pageMargin (sp : SectionProperty) (m : PageMargin) : SectionProperty :=
  { sp with _pageMargin := some m }

/-- Modelled from the spec: `SectionProperty.pageOrientation` stores the
orientation literal, keeping the stored width and height (A4 portrait
figures stand in for the missing default when no page size was set). -/
def SectionProperty.pageOrientation (sp : SectionProperty) (o : String) : SectionProperty :=
  match sp._pageSize with
  | some ps => { sp with _pageSize := some { ps with orient := some o } }
  | none => { sp with _pageSize := some { w := 11906, h := 16838, orient := some o } }

/-- Modelled from the spec: `SectionProperty.docGrid`. -/
def SectionProperty.docGrid (sp : SectionProperty) (ty : String)
    (linePitch charSpace : Option Nat) : SectionProperty :=
  { sp with _docGrid := some { gridType := ty, linePitch := linePitch, charSpace := charSpace } }

/-- Modelled from the spec: `WebExtension` of webextension.ts (not under
src/): id, reference id, version, store, store type and arbitrary string
properties (§3). -/
structure WebExtension where
  _id : String
  _referenceId : String
  _version : String
  _store : String
  _storeType : String
  properties : List (String × String) := []
  deriving DecidableEq, Repr

/-- Modelled from the spec: `WebExtension.property` assigns into the
properties object. -/
def WebExtension.property (e : WebExtension) (name value : String) : WebExtension :=
  { e with properties := upsert e.properties name value }

/-! ## The `Docx` class (index.ts lines 74-201) -/

/-- Embedding of the element type of `Docx.children` (index.ts line 75):
`Paragraph | Table | BookmarkStart | BookmarkEnd`. -/
inductive DocxChild where
  | paragraph (p : Paragraph)
  | table (t : Table)
  | bookmarkStart (id : Nat) (name : String)
  | bookmarkEnd (id : Nat)

/-- Embedding of the mutable fields of the `Docx` class (index.ts lines
74-85), with the initializers of the source. -/
structure DocxState where
  children : List DocxChild := []
  hasNumberings : Bool := false
  abstractNumberings : List AbstractNumbering := []
  numberings : List Numbering := []
  settings : Settings := {}
  docProps : DocProps := {}
  sectionProperty : SectionProperty := {}
  _taskpanes : Bool := false
  webextensions : List WebExtension := []
  customItems : List (String × String) := []
  styles : Styles := {}

/-- Embedding of `Docx.addParagraph` (index.ts lines 87-93): sets
`hasNumberings` when the paragraph uses numbering, then appends. -/
def DocxState.addParagraph (s : DocxState) (p : Paragraph) : DocxState :=
  let s := if p.hasNumberings then { s with hasNumberings := true } else s
  { s with children := s.children ++ [.paragraph p] }

/-- Embedding of `Docx.addBookmarkStart` (index.ts lines 95-98). -/
def DocxState.addBookmarkStart (s : DocxState) (id : Nat) (name : String) : DocxState :=
  { s with children := s.children ++ [.bookmarkStart id name] }

/-- Embedding of `Docx.addBookmarkEnd` (index.ts lines 100-103). -/
def DocxState.addBookmarkEnd (s : DocxState) (id : Nat) : DocxState :=
  { s with children := s.children ++ [.bookmarkEnd id] }

/-- Embedding of `Docx.addTable` (index.ts lines 105-111): sets
`hasNumberings` when the table uses numbering, then appends. -/
def DocxState.addTable (s : DocxState) (t : Table) : DocxState :=
  let s := if t.hasNumberings then { s with hasNumberings := true } else s
  { s with children := s.children ++ [.table t] }

/-- Embedding of `Docx.addAbstractNumbering` (index.ts lines 113-116). -/
def DocxState.addAbstractNumbering (s : DocxState) (num : AbstractNumbering) : DocxState :=
  { s with abstractNumberings := s.abstractNumberings ++ [num] }

/-- Embedding of `Docx.addNumbering` (index.ts lines 118-121). -/
def DocxState.addNumbering (s : DocxState) (num : Numbering) : DocxState :=
  { s with numberings := s.numberings ++ [num] }

/-- Embedding of `Docx.docId` (index.ts lines 123-126). -/
def DocxState.docId (s : DocxState) (id : String) : DocxState :=
  { s with settings := s.settings.docId id }

/-- Embedding of `Docx.defaultTabStop` (index.ts lines 128-131). -/
def DocxState.defaultTabStop (s : DocxState) (stop : Nat) : DocxState :=
  { s with settings := s.settings.defaultTabStop stop }

/-- Embedding of `Docx.createdAt` (index.ts lines 133-136). -/
def DocxState.createdAt (s : DocxState) (date : String) : DocxState :=
  { s with docProps := s.docProps.createdAt date }

/-- Embedding of `Docx.customProperty` (index.ts lines 138-141). -/
def DocxState.customProperty (s : DocxState) (name item : String) : DocxState :=
  { s with docProps := s.docProps.customProperty name item }

/-- Embedding of `Docx.updatedAt` (index.ts lines 143-146). -/
def DocxState.updatedAt (s : DocxState) (date : String) : DocxState :=
  { s with docProps := s.docProps.updatedAt date }

/-- Embedding of `Docx.addDocVar` (index.ts lines 148-151). -/
def DocxState.addDocVar (s : DocxState) (name val : String) : DocxState :=
  { s with settings := s.settings.addDocVar name val }

/-- Embedding of `Docx.pageSize` (index.ts lines 153-156). -/
def DocxState.pageSize (s : DocxState) (w h : Nat) : DocxState :=
  { s with sectionProperty := s.sectionProperty.pageSize w h }

/-- Embedding of `Docx.pageMargin` (index.ts lines 158-161). -/
def DocxState.pageMargin (s : DocxState) (m : PageMargin) : DocxState :=
  { s with sectionProperty := s.sectionProperty.pageMargin m }

/-- Embedding of `Docx.pageOrientation` (index.ts lines 163-166). -/
def DocxState.pageOrientation (s : DocxState) (o : String) : DocxState :=
  { s with sectionProperty := s.sectionProperty.pageOrientation o }

/-- Embedding of `Docx.docGrid` (index.ts lines 168-171). -/
def DocxState.docGrid (s : DocxState) (ty : String) (linePitch charSpace : Option Nat) :
    DocxState :=
  { s with sectionProperty := s.sectionProperty.docGrid ty linePitch charSpace }

/-- Embedding of `Docx.defaultSize` (index.ts lines 173-176). -/
def DocxState.defaultSize (s : DocxState) (size : Nat) : DocxState :=
  { s with styles := s.styles.defaultSize size }

/-- Embedding of `Docx.defaultFonts` (index.ts lines 178-181). -/
def DocxState.defaultFonts (s : DocxState) (fonts : RunFonts) : DocxState :=
  { s with styles := s.styles.defaultFonts fonts }

/-- Embedding of `Docx.defaultSpacing` (index.ts lines 183-186). -/
def DocxState.defaultSpacing (s : DocxState) (spacing : Int) : DocxState :=
  { s with styles := s.styles.defaultSpacing spacing }

/-- Embedding of `Docx.taskpanes` (index.ts lines 188-191): only sets the
flag. -/
def DocxState.taskpanes (s : DocxState) : DocxState :=
  { s with _taskpanes := true }

/-- Embedding of `Docx.webextension` (index.ts lines 193-196): appends
unconditionally, whatever the current `_taskpanes` value. -/
def DocxState.webextension (s : DocxState) (e : WebExtension) : DocxState :=
  { s with webextensions := s.webextensions ++ [e] }

/-- Embedding of `Docx.addCustomItem` (index.ts lines 198-201). -/
def DocxState.addCustomItem (s : DocxState) (id xml : String) : DocxState :=
  { s with customItems := s.customItems ++ [(id, xml)] }

/-- One public builder call on a `Docx` instance, used to state properties
about call sequences. -/
inductive DocxOp where
  | addParagraph (p : Paragraph)
  | addTable (t : Table)
  | addBookmarkStart (id : Nat) (name : String)
  | addBookmarkEnd (id : Nat)
  | addAbstractNumbering (num : AbstractNumbering)
  | addNumbering (num : Numbering)
  | docId (id : String)
  | defaultTabStop (stop : Nat)
  | createdAt (date : String)
  | customProperty (name item : String)
  | updatedAt (date : String)
  | addDocVar (name val : String)
  | pageSize (w h : Nat)
  | pageMargin (m : PageMargin)
  | pageOrientation (o : String)
  | docGrid (ty : String) (linePitch charSpace : Option Nat)
  | defaultSize (size : Nat)
  | defaultFonts (fonts : RunFonts)
  | defaultSpacing (spacing : Int)
  | taskpanes
  | webextension (e : WebExtension)
  | addCustomItem (id xml : String)

/-- Dispatch of one builder call to its embedding. -/
def applyOp (s : DocxState) : DocxOp → DocxState
  | .addParagraph p => s.addParagraph p
  | .addTable t => s.addTable t
  | .addBookmarkStart id name => s.addBookmarkStart id name
  | .addBookmarkEnd id => s.addBookmarkEnd id
  | .addAbstractNumbering num => s.addAbstractNumbering num
  | .addNumbering num => s.addNumbering num
  | .docId id => s.docId id
  | .defaultTabStop stop => s.defaultTabStop stop
  | .createdAt date => s.createdAt date
  | .customProperty name item => s.customProperty name item
  | .updatedAt date => s.updatedAt date
  | .addDocVar name val => s.addDocVar name val
  | .pageSize w h => s.pageSize w h
  | .pageMargin m => s.pageMargin m
  | .pageOrientation o => s.pageOrientation o
  | .docGrid ty lp cs => s.docGrid ty lp cs
  | .defaultSize size => s.defaultSize size
  | .defaultFonts fonts => s.defaultFonts fonts
  | .defaultSpacing spacing => s.defaultSpacing spacing
  | .taskpanes => s.taskpanes
  | .webextension e => s.webextension e
  | .addCustomItem id xml => s.addCustomItem id xml

/-- A sequence of builder calls applied in order to a state. -/
def applyOps (s : DocxState) (ops : List DocxOp) : DocxState :=
  ops.foldl applyOp s

/-! ## The wasm document and `createDocx` (index.ts lines 756-919) -/

/-- Embedding of the wasm `PageOrientationType` enum. -/
inductive PageOrientCode where
  | Landscape | Portrait
  deriving DecidableEq, Repr

/-- Embedding of the wasm `DocGridType` enum. -/
inductive DocGridCode where
  | Default | Lines | LinesAndChars | SnapToChars
  deriving DecidableEq, Repr

/-- Modelled from the spec: the wasm page margin built by
`wasm.createPageMargin()` with its seven chained setters. -/
structure WasmPageMargin where
  top : Int := 0
  left : Int := 0
  right : Int := 0
  bottom : Int := 0
  header : Int := 0
  footer : Int := 0
  gutter : Int := 0
  deriving DecidableEq, Repr

/-- Modelled from the spec: the wasm web extension built by
`wasm.createWebExtension(id, referenceId, version, store, storeType)`;
`property` assigns a string property. -/
structure WasmWebExtension where
  id : String
  referenceId : String
  version : String
  store : String
  storeType : String
  properties : List (String × String) := []
  deriving DecidableEq, Repr

/-- A top-level child of the wasm document, appended by the document's
`add_paragraph` / `add_table` / `add_bookmark_start` / `add_bookmark_end`. -/
inductive WasmDocxChild where
  | paragraph (p : WasmParagraph)
  | table (t : WasmTable)
  | bookmarkStart (id : Nat) (name : String)
  | bookmarkEnd (id : Nat)

/-- Modelled from the spec: the wasm document built by `wasm.createDocx()`;
one field per chained method `createDocx` uses. This record is the
canonical node tree handed to the wasm serializer (§2 data flow). -/
structure WasmDocx where
  children : List WasmDocxChild := []
  abstractNumberings : List WasmAbstractNumbering := []
  numberings : List WasmNumbering := []
  docId : Option String := none
  defaultTabStop : Nat := 840
  docVars : List (String × String) := []
  pageMargin : Option WasmPageMargin := none
  pageSize : Option (Nat × Nat) := none
  pageOrient : Option PageOrientCode := none
  docGrid : Option (DocGridCode × Option Nat × Option Nat) := none
  defaultFonts : Option WasmRunFonts := none
  defaultSize : Option Nat := none
  defaultSpacing : Option Int := none
  createdAt : Option String := none
  updatedAt : Option String := none
  customProperties : List (String × String) := []
  taskpanes : Bool := false
  webExtensions : List WasmWebExtension := []
  customItems : List (String × String) := []

/-- Wasm `docx.add_paragraph`. -/
def WasmDocx.add_paragraph (d : WasmDocx) (p : WasmParagraph) : WasmDocx :=
  { d with children := d.children ++ [.paragraph p] }

/-- Wasm `docx.add_table`. -/
def WasmDocx.add_table (d : WasmDocx) (t : WasmTable) : WasmDocx :=
  { d with children := d.children ++ [.table t] }

/-- Wasm `docx.add_bookmark_start`. -/
def WasmDocx.add_bookmark_start (d : WasmDocx) (id : Nat) (name : String) : WasmDocx :=
  { d with children := d.children ++ [.bookmarkStart id name] }

/-- Wasm `docx.add_bookmark_end`. -/
def WasmDocx.add_bookmark_end (d : WasmDocx) (id : Nat) : WasmDocx :=
  { d with children := d.children ++ [.bookmarkEnd id] }

/-- Wasm `docx.add_abstract_numbering`. -/
def WasmDocx.add_abstract_numbering (d : WasmDocx) (n : WasmAbstractNumbering) : WasmDocx :=
  { d with abstractNumberings := d.abstractNumberings ++ [n] }

/-- Wasm `docx.add_numbering`. -/
def WasmDocx.add_numbering (d : WasmDocx) (n : WasmNumbering) : WasmDocx :=
  { d with numberings := d.numberings ++ [n] }

/-- Wasm `docx.doc_id`. -/
def WasmDocx.doc_id (d : WasmDocx) (id : String) : WasmDocx :=
  { d with docId := some id }

/-- Wasm `docx.default_tab_stop`. -/
def WasmDocx.default_tab_stop (d : WasmDocx) (stop : Nat) : WasmDocx :=
  { d with defaultTabStop := stop }

/-- Wasm `docx.add_doc_var`. -/
def WasmDocx.add_doc_var (d : WasmDocx) (name val : String) : WasmDocx :=
  { d with docVars := d.docVars ++ [(name, val)] }

/-- Wasm `docx.page_margin`. -/
def WasmDocx.page_margin (d : WasmDocx) (m : WasmPageMargin) : WasmDocx :=
  { d with pageMargin := some m }

/-- Wasm `docx.page_size(w, h)` stores the two literals as given. -/
def WasmDocx.page_size (d : WasmDocx) (w h : Nat) : WasmDocx :=
  { d with pageSize := some (w, h) }

/-- Wasm `docx.page_orient` stores the orientation flag; it does not touch
the stored page size. -/
def WasmDocx.page_orient (d : WasmDocx) (o : PageOrientCode) : WasmDocx :=
  { d with pageOrient := some o }

/-- Wasm `docx.doc_grid`. -/
def WasmDocx.doc_grid (d : WasmDocx) (ty : DocGridCode) (linePitch charSpace : Option Nat) :
    WasmDocx :=
  { d with docGrid := some (ty, linePitch, charSpace) }

/-- Wasm `docx.default_fonts`. -/
def WasmDocx.default_fonts (d : WasmDocx) (f : WasmRunFonts) : WasmDocx :=
  { d with defaultFonts := some f }

/-- Wasm `docx.default_size`. -/
def WasmDocx.default_size (d : WasmDocx) (n : Nat) : WasmDocx :=
  { d with defaultSize := some n }

/-- Wasm `docx.default_spacing`. -/
def WasmDocx.default_spacing (d : WasmDocx) (n : Int) : WasmDocx :=
  { d with defaultSpacing := some n }

/-- Wasm `docx.created_at`. -/
def WasmDocx.created_at (d : WasmDocx) (date : String) : WasmDocx :=
  { d with createdAt := some date }

/-- Wasm `docx.updated_at`. -/
def WasmDocx.updated_at (d : WasmDocx) (date : String) : WasmDocx :=
  { d with updatedAt := some date }

/-- Wasm `docx.custom_property`. -/
def WasmDocx.custom_property (d : WasmDocx) (key item : String) : WasmDocx :=
  { d with customProperties := upsert d.customProperties key item }

/-- Wasm `docx.taskpanes`. -/
def WasmDocx.enableTaskpanes (d : WasmDocx) : WasmDocx :=
  { d with taskpanes := true }

/-- Wasm `docx.web_extension`. -/
def WasmDocx.web_extension (d : WasmDocx) (e : WasmWebExtension) : WasmDocx :=
  { d with webExtensions := d.webExtensions ++ [e] }

/-- Wasm `docx.add_custom_item`. -/
def WasmDocx.add_custom_item (d : WasmDocx) (id xml : String) : WasmDocx :=
  { d with customItems := d.customItems ++ [(id, xml)] }

/-- Embedding of the web-extension construction inside `createDocx`
(index.ts lines 899-910): `createWebExtension` from the five fields, then
each property entry in order. -/
def buildWebExtension (e : WebExtension) : WasmWebExtension :=
  e.properties.foldl (fun ext kv => { ext with properties := upsert ext.properties kv.1 kv.2 })
    { id := e._id, referenceId := e._referenceId, version := e._version,
      store := e._store, storeType := e._storeType }

/-- The per-child body of the children `forEach` of `createDocx` (index.ts
lines 759-771). -/
def addDocxChild (d : WasmDocx) (child : DocxChild) : WasmDocx :=
  match child with
  | .paragraph p => d.add_paragraph (buildParagraph p)
  | .table t => d.add_table (buildTable t)
  | .bookmarkStart id name => d.add_bookmark_start id name
  | .bookmarkEnd id => d.add_bookmark_end id

/-- The per-entry body of the abstract-numbering `forEach` of `createDocx`
(index.ts lines 773-780). -/
def addAbstractNumberingStep (d : WasmDocx) (n : AbstractNumbering) : WasmDocx :=
  d.add_abstract_numbering (buildAbstractNumbering n)

/-- The per-entry body of the numbering `forEach` of `createDocx` (index.ts
lines 782-802). -/
def addNumberingStep (d : WasmDocx) (n : Numbering) : WasmDocx :=
  d.add_numbering (buildNumbering n)

/-- The per-entry body of the doc-var `forEach` of `createDocx` (index.ts
lines 810-812). -/
def addDocVarStep (d : WasmDocx) (v : DocVar) : WasmDocx :=
  d.add_doc_var v.name v.val

/-- The per-entry body of the custom-property loop of `createDocx`
(index.ts lines 888-890). -/
def addCustomPropertyStep (d : WasmDocx) (kv : String × String) : WasmDocx :=
  d.custom_property kv.1 kv.2

/-- The per-entry body of the web-extension loop of `createDocx` (index.ts
lines 899-911). -/
def addWebExtensionStep (d : WasmDocx) (e : WebExtension) : WasmDocx :=
  d.web_extension (buildWebExtension e)

/-- The per-entry body of the custom-item loop of `createDocx` (index.ts
lines 914-916). -/
def addCustomItemStep (d : WasmDocx) (it : String × String) : WasmDocx :=
  d.add_custom_item it.1 it.2

set_option maxHeartbeats 1000000 in
/-- Embedding of `Docx.createDocx` (index.ts lines 756-919): folds the
children, the abstract numberings and the numberings into a fresh wasm
document in order, then applies the settings (the doc id only when truthy),
section properties, style defaults, doc props (`updated_at` is applied a
second time, as in the source), the task-pane gate for web extensions, and
the custom items. -/
def createDocx (s : DocxState) : WasmDocx :=
  let docx : WasmDocx := {}
  let docx := s.children.foldl addDocxChild docx
  let docx := s.abstractNumberings.foldl addAbstractNumberingStep docx
  let docx := s.numberings.foldl addNumberingStep docx
  let docx := if strTruthy s.settings._docId then
    docx.doc_id (s.settings._docId.getD "") else docx
  let docx := docx.default_tab_stop s.settings._defaultTabStop
  let docx := s.settings._docVars.foldl addDocVarStep docx
  let docx := if s.sectionProperty._pageMargin.isSome then
    (let m := s.sectionProperty._pageMargin.getD {}
     docx.page_margin
       { top := m.top, left := m.left, right := m.right, bottom := m.bottom,
         header := m.header, footer := m.footer, gutter := m.gutter })
    else docx
  let docx := if s.sectionProperty._pageSize.isSome then
    (let ps := s.sectionProperty._pageSize.getD { w := 0, h := 0 }
     let d := docx.page_size ps.w ps.h
     if ps.orient = some "landscape" then d.page_orient .Landscape
     else if ps.orient = some "portrait" then d.page_orient .Portrait
     else d)
    else docx
  let docx := if s.sectionProperty._docGrid.isSome then
    (let dg := s.sectionProperty._docGrid.getD { gridType := "default" }
     let ty :=
       if dg.gridType = "lines" then DocGridCode.Lines
       else if dg.gridType = "linesAndChars" then DocGridCode.LinesAndChars
       else if dg.gridType = "snapToChars" then DocGridCode.SnapToChars
       else DocGridCode.Default
     docx.doc_grid ty dg.linePitch dg.charSpace)
    else docx
  let docx := if s.styles.docDefaults.runProperty.fonts.isSome then
    docx.default_fonts (buildRunFonts s.styles.docDefaults.runProperty.fonts) else docx
  let docx := if natTruthy s.styles.docDefaults.runProperty.size then
    docx.default_size (s.styles.docDefaults.runProperty.size.getD 0) else docx
  let docx := if intTruthy s.styles.docDefaults.runProperty.spacing then
    docx.default_spacing (s.styles.docDefaults.runProperty.spacing.getD 0) else docx
  let docx := if strTruthy s.docProps._createdAt then
    docx.created_at (s.docProps._createdAt.getD "") else docx
  let docx := if strTruthy s.docProps._updatedAt then
    docx.updated_at (s.docProps._updatedAt.getD "") else docx
  let docx := s.docProps._customProperties.foldl addCustomPropertyStep docx
  let docx := if strTruthy s.docProps._updatedAt then
    docx.updated_at (s.docProps._updatedAt.getD "") else docx
  let docx :=
    if s._taskpanes then
      (s.webextensions.foldl addWebExtensionStep docx.enableTaskpanes)
    else docx
  s.customItems.foldl addCustomItemStep docx

/-! ## The wasm build / read pair

`docx.build(hasNumberings)`, `docx.json_with_update_comments()`,
`docx.free()` and `wasm.readDocx(buf)` live in the Rust core, which is not
under `src/`. They are modelled from the specification:

* §4.2 / §7: build fails with `ValidationError`, synchronously and fatally,
  when a `Numbering.abstractNumId` does not reference an existing
  `AbstractNumbering.id`; otherwise it succeeds.
* §4.4 / §6: on success the package holds the fixed part list; the
  numbering part is present iff the `hasNumberings` flag passed by
  `Docx.build` is set; the custom-properties part iff custom properties are
  set; the web-extension parts iff task panes are enabled; one custom-item
  triplet per custom item. Created/updated metadata in `docProps/core.xml`
  fall back to the wall clock when the model does not pin them.
* §4.5: the reader reconstructs the canonical tree, omitting the model
  fields of absent optional parts.

The package is modelled at the logical level: one field per part (or part
family) holding the model data that part serializes. Comment bodies stay
attached to their anchors inside the document field; the writer's
comments-part split and the reader's extended-comment merge are inverse
bookkeeping between the same data (§4.5) and cancel in this model. -/

/-- Modelled from the spec: the error taxonomy of §7 relevant to build. -/
inductive DocxError where
  | validation
  deriving DecidableEq, Repr

/-- Modelled from the spec (§3, Document invariant): every
`Numbering.abstractNumId` references an existing `AbstractNumbering.id`. -/
def numberingInvariant (d : WasmDocx) : Bool :=
  d.numberings.all (fun n => d.abstractNumberings.any (fun a => a.id == n.abstractNumId))

/-- Modelled from the spec (§4.4, §6): the logically distinct parts of the
built package. -/
structure Package where
  documentChildren : List WasmDocxChild
  pageMargin : Option WasmPageMargin
  pageSize : Option (Nat × Nat)
  pageOrient : Option PageOrientCode
  docGrid : Option (DocGridCode × Option Nat × Option Nat)
  settingsDocId : Option String
  settingsDefaultTabStop : Nat
  settingsDocVars : List (String × String)
  stylesDefaultFonts : Option WasmRunFonts
  stylesDefaultSize : Option Nat
  stylesDefaultSpacing : Option Int
  numberingPart : Option (List WasmAbstractNumbering × List WasmNumbering)
  coreCreatedAt : String
  coreUpdatedAt : String
  customPropsPart : Option (List (String × String))
  webExtensionsPart : Option (List WasmWebExtension)
  customItemParts : List (String × String)

/-- Modelled from the spec (§4.3, §4.4, §6): render the canonical tree into
the package parts. Optional parts are emitted only when their feature is
used: the numbering part iff the `hasNumberings` flag passed to the wasm
build call is set, the custom-properties part iff any custom property is
set, the web-extension parts iff task panes are enabled. Timestamps fall
back to the wall clock `now`. -/
def buildPackage (d : WasmDocx) (hasNumberings : Bool) (now : String) : Package where
  documentChildren := d.children
  pageMargin := d.pageMargin
  pageSize := d.pageSize
  pageOrient := d.pageOrient
  docGrid := d.docGrid
  settingsDocId := d.docId
  settingsDefaultTabStop := d.defaultTabStop
  settingsDocVars := d.docVars
  stylesDefaultFonts := d.defaultFonts
  stylesDefaultSize := d.defaultSize
  stylesDefaultSpacing := d.defaultSpacing
  numberingPart := if hasNumberings then some (d.abstractNumberings, d.numberings) else none
  coreCreatedAt := d.createdAt.getD now
  coreUpdatedAt := d.updatedAt.getD now
  customPropsPart := if d.customProperties.isEmpty then none else some d.customProperties
  webExtensionsPart := if d.taskpanes then some d.webExtensions else none
  customItemParts := d.customItems

/-- Modelled from the spec (§4.2, §7): `wasm.Docx.build` validates the
numbering references and then assembles the package; an unresolved
`abstractNumId` fails the whole call with `ValidationError`. -/
def wasmBuild (d : WasmDocx) (hasNumberings : Bool) (now : String) :
    Except DocxError Package :=
  if numberingInvariant d then .ok (buildPackage d hasNumberings now) else .error .validation

/-- Modelled from the spec (§4.5): `readDocx` reconstructs the canonical
tree from the package, omitting the model fields of absent optional
parts. -/
def readPackage (p : Package) : WasmDocx where
  children := p.documentChildren
  abstractNumberings := (p.numberingPart.map Prod.fst).getD []
  numberings := (p.numberingPart.map Prod.snd).getD []
  docId := p.settingsDocId
  defaultTabStop := p.settingsDefaultTabStop
  docVars := p.settingsDocVars
  pageMargin := p.pageMargin
  pageSize := p.pageSize
  pageOrient := p.pageOrient
  docGrid := p.docGrid
  defaultFonts := p.stylesDefaultFonts
  defaultSize := p.stylesDefaultSize
  defaultSpacing := p.stylesDefaultSpacing
  createdAt := some p.coreCreatedAt
  updatedAt := some p.coreUpdatedAt
  customProperties := p.customPropsPart.getD []
  taskpanes := p.webExtensionsPart.isSome
  webExtensions := p.webExtensionsPart.getD []
  customItems := p.customItemParts

/-- Erase the two metadata fields the spec binds to non-deterministic
generation (created/updated timestamps, §8 round-trip clause). -/
def stripTimes (d : WasmDocx) : WasmDocx :=
  { d with createdAt := none, updatedAt := none }

/-- Erase the wall-clock-bound core-properties metadata of a package (§4.4
determinism clause). -/
def stripTimesPkg (p : Package) : Package :=
  { p with coreCreatedAt := "", coreUpdatedAt := "" }

/-! ## Terminal operations `build()` / `json()` (index.ts lines 921-933)

The wasm `Docx` object is a native resource handle; `docx.free()` releases
it. The two terminal calls are embedded as traces recording the produced
output, the final handle state, and the (untouched) JS instance state. -/

/-- A wasm document handle: the wrapped tree plus whether `free()` has been
called on it. -/
structure WasmHandle where
  doc : WasmDocx
  freed : Bool

/-- Modelled from the spec: `free` releases the native handle. -/
def WasmHandle.free (h : WasmHandle) : WasmHandle :=
  { h with freed := true }

/-- The observable outcome of one terminal call: its output, the final
state of the wasm handle it created, and the JS instance state after the
call returns. -/
structure BuildTrace (α : Type) where
  output : α
  handle : WasmHandle
  self : DocxState

/-- Embedding of `Docx.build` (index.ts lines 928-933): create the wasm
document from the instance fields (reading them only), build it with the
`hasNumberings` flag, free the handle, return the buffer. -/
def DocxState.buildTraced (s : DocxState) (now : String) :
    BuildTrace (Except DocxError Package) :=
  let docx : WasmHandle := { doc := createDocx s, freed := false }
  let buf := wasmBuild docx.doc s.hasNumberings now
  let docx := docx.free
  { output := buf, handle := docx, self := s }

/-- The byte-buffer output of `Docx.build`. -/
def DocxState.build (s : DocxState) (now : String) : Except DocxError Package :=
  (s.buildTraced now).output

/-- Embedding of `Docx.json` (index.ts lines 921-926): create the wasm
document, serialize the canonical tree, free the handle, return the parsed
model. -/
def DocxState.jsonTraced (s : DocxState) : BuildTrace WasmDocx :=
  let docx : WasmHandle := { doc := createDocx s, freed := false }
  let out := docx.doc
  let docx := docx.free
  { output := out, handle := docx, self := s }

/-- Embedding of `readDocx` (index.ts lines 936-938) composed with the
reader model: parse the package back into the canonical tree. -/
def readDocx (p : Package) : WasmDocx := readPackage p

/-- The translation `addDocxChild` applies to one top-level child. -/
def translateDocxChild : DocxChild → WasmDocxChild
  | .paragraph p => .paragraph (buildParagraph p)
  | .table t => .table (buildTable t)
  | .bookmarkStart id name => .bookmarkStart id name
  | .bookmarkEnd id => .bookmarkEnd id

/-- Sequential key-assignments into a JS object, as a fold of `upsert`. -/
def upsertAll (acc : List (String × String)) (l : List (String × String)) :
    List (String × String) :=
  l.foldl (fun a kv => upsert a kv.1 kv.2) acc

/-- Whether one builder call carries a numbering-using paragraph or table
(the two calls that set `hasNumberings`, index.ts lines 87-93 and
105-111). -/
def opUsesNumbering : DocxOp → Bool
  | .addParagraph p => p.hasNumberings
  | .addTable t => t.hasNumberings
  | _ => false

/-! ## Concrete documents used as witnesses and counterexamples -/

/-- A document that defines a numbering (with a matching abstract
numbering) but never uses it from a paragraph or table. -/
def unusedNumberingDoc : DocxState :=
  (({} : DocxState).addAbstractNumbering { id := 5 }).addNumbering { id := 1, abstractNumId := 5 }

/-- A paragraph bound to numbering id 0, level 0. -/
def numberedParagraph : Paragraph :=
  .mk [] { numbering := some { id := 0, level := 0 } }

/-- The builder-call list of the numbering-part witness. -/
def numberingOps : List DocxOp := [DocxOp.addParagraph numberedParagraph]

/-- The package built from `numberingOps`. -/
def numberingOpsPkg : Package :=
  buildPackage (createDocx (applyOps {} numberingOps))
    (applyOps {} numberingOps).hasNumberings "now"

/-- A web extension registered in the tests' shape. -/
def sampleExt : WebExtension :=
  { _id := "7f33b723", _referenceId := "abcd", _version := "1.0.0.0",
    _store := "developer", _storeType := "Registry" }

/-- A document that registers `sampleExt` while `_taskpanes` is still
false, and only afterwards enables task panes. -/
def extThenTaskpanesDoc : DocxState :=
  applyOps {} [DocxOp.webextension sampleExt, DocxOp.taskpanes]

/-- The package built from `extThenTaskpanesDoc`. -/
def extThenTaskpanesPkg : Package :=
  buildPackage (createDocx extThenTaskpanesDoc) extThenTaskpanesDoc.hasNumberings "now"

/-- A document with the page size and orientation of spec Scenario D. -/
def landscapeDoc : DocxState :=
  (({} : DocxState).pageSize 16838 11906).pageOrientation "landscape"

/-- The package built from the empty document. -/
def emptyDocPkg : Package :=
  buildPackage (createDocx {}) ({} : DocxState).hasNumberings "t"

/-! ## Characterization lemmas for the `createDocx` folds -/

theorem addDocxChild_eq (d : WasmDocx) (c : DocxChild) :
    addDocxChild d c = { d with children := d.children ++ [translateDocxChild c] } := by
  cases c <;> rfl

theorem foldl_addDocxChild (cs : List DocxChild) (d : WasmDocx) :
    cs.foldl addDocxChild d = { d with children := d.children ++ cs.map translateDocxChild } := by
  induction cs generalizing d with
  | nil => simp
  | cons c rest ih => simp [addDocxChild_eq, ih]

theorem foldl_addAbstractNumberingStep (l : List AbstractNumbering) (d : WasmDocx) :
    l.foldl addAbstractNumberingStep d =
      { d with abstractNumberings := d.abstractNumberings ++ l.map buildAbstractNumbering } := by
  induction l generalizing d with
  | nil => simp
  | cons n rest ih => simp [addAbstractNumberingStep, WasmDocx.add_abstract_numbering, ih]

theorem foldl_addNumberingStep (l : List Numbering) (d : WasmDocx) :
    l.foldl addNumberingStep d =
      { d with numberings := d.numberings ++ l.map buildNumbering } := by
  induction l generalizing d with
  | nil => simp
  | cons n rest ih => simp [addNumberingStep, WasmDocx.add_numbering, ih]

theorem foldl_addDocVarStep (l : List DocVar) (d : WasmDocx) :
    l.foldl addDocVarStep d =
      { d with docVars := d.docVars ++ l.map (fun v => (v.name, v.val)) } := by
  induction l generalizing d with
  | nil => simp
  | cons v rest ih => simp [addDocVarStep, WasmDocx.add_doc_var, ih]

theorem foldl_addCustomPropertyStep (l : List (String × String)) (d : WasmDocx) :
    l.foldl addCustomPropertyStep d =
      { d with customProperties := upsertAll d.customProperties l } := by
  induction l generalizing d with
  | nil => simp [upsertAll]
  | cons kv rest ih =>
    simp [addCustomPropertyStep, WasmDocx.custom_property, ih, upsertAll]

theorem foldl_addWebExtensionStep (l : List WebExtension) (d : WasmDocx) :
    l.foldl addWebExtensionStep d =
      { d with webExtensions := d.webExtensions ++ l.map buildWebExtension } := by
  induction l generalizing d with
  | nil => simp
  | cons e rest ih => simp [addWebExtensionStep, WasmDocx.web_extension, ih]

theorem foldl_addCustomItemStep (l : List (String × String)) (d : WasmDocx) :
    l.foldl addCustomItemStep d = { d with customItems := d.customItems ++ l } := by
  induction l generalizing d with
  | nil => simp
  | cons it rest ih => simp [addCustomItemStep, WasmDocx.add_custom_item, ih]

/-! ## Field characterizations of `createDocx` -/

theorem createDocx_numberings (s : DocxState) :
    (createDocx s).numberings = s.numberings.map buildNumbering := by
  simp only [createDocx, foldl_addDocxChild, foldl_addAbstractNumberingStep,
    foldl_addNumberingStep, foldl_addDocVarStep, foldl_addCustomPropertyStep,
    foldl_addWebExtensionStep, foldl_addCustomItemStep,
    WasmDocx.doc_id, WasmDocx.default_tab_stop, WasmDocx.page_margin,
    WasmDocx.page_size, WasmDocx.page_orient, WasmDocx.doc_grid,
    WasmDocx.default_fonts, WasmDocx.default_size, WasmDocx.default_spacing,
    WasmDocx.created_at, WasmDocx.updated_at, WasmDocx.enableTaskpanes,
    apply_ite (f := WasmDocx.numberings)]
  simp

theorem createDocx_abstractNumberings (s : DocxState) :
    (createDocx s).abstractNumberings = s.abstractNumberings.map buildAbstractNumbering := by
  simp only [createDocx, foldl_addDocxChild, foldl_addAbstractNumberingStep,
    foldl_addNumberingStep, foldl_addDocVarStep, foldl_addCustomPropertyStep,
    foldl_addWebExtensionStep, foldl_addCustomItemStep,
    WasmDocx.doc_id, WasmDocx.default_tab_stop, WasmDocx.page_margin,
    WasmDocx.page_size, WasmDocx.page_orient, WasmDocx.doc_grid,
    WasmDocx.default_fonts, WasmDocx.default_size, WasmDocx.default_spacing,
    WasmDocx.created_at, WasmDocx.updated_at, WasmDocx.enableTaskpanes,
    apply_ite (f := WasmDocx.abstractNumberings)]
  simp

theorem createDocx_taskpanes (s : DocxState) :
    (createDocx s).taskpanes = s._taskpanes := by
  simp only [createDocx, foldl_addDocxChild, foldl_addAbstractNumberingStep,
    foldl_addNumberingStep, foldl_addDocVarStep, foldl_addCustomPropertyStep,
    foldl_addWebExtensionStep, foldl_addCustomItemStep,
    WasmDocx.doc_id, WasmDocx.default_tab_stop, WasmDocx.page_margin,
    WasmDocx.page_size, WasmDocx.page_orient, WasmDocx.doc_grid,
    WasmDocx.default_fonts, WasmDocx.default_size, WasmDocx.default_spacing,
    WasmDocx.created_at, WasmDocx.updated_at, WasmDocx.enableTaskpanes,
    apply_ite (f := WasmDocx.taskpanes)]
  cases s._taskpanes <;> simp

theorem createDocx_webExtensions (s : DocxState) :
    (createDocx s).webExtensions =
      if s._taskpanes then s.webextensions.map buildWebExtension else [] := by
  simp only [createDocx, foldl_addDocxChild, foldl_addAbstractNumberingStep,
    foldl_addNumberingStep, foldl_addDocVarStep, foldl_addCustomPropertyStep,
    foldl_addWebExtensionStep, foldl_addCustomItemStep,
    WasmDocx.doc_id, WasmDocx.default_tab_stop, WasmDocx.page_margin,
    WasmDocx.page_size, WasmDocx.page_orient, WasmDocx.doc_grid,
    WasmDocx.default_fonts, WasmDocx.default_size, WasmDocx.default_spacing,
    WasmDocx.created_at, WasmDocx.updated_at, WasmDocx.enableTaskpanes,
    apply_ite (f := WasmDocx.webExtensions)]
  cases s._taskpanes <;> simp

theorem createDocx_pageSize (s : DocxState) :
    (createDocx s).pageSize = s.sectionProperty._pageSize.map (fun ps => (ps.w, ps.h)) := by
  simp only [createDocx, foldl_addDocxChild, foldl_addAbstractNumberingStep,
    foldl_addNumberingStep, foldl_addDocVarStep, foldl_addCustomPropertyStep,
    foldl_addWebExtensionStep, foldl_addCustomItemStep,
    WasmDocx.doc_id, WasmDocx.default_tab_stop, WasmDocx.page_margin,
    WasmDocx.page_size, WasmDocx.page_orient, WasmDocx.doc_grid,
    WasmDocx.default_fonts, WasmDocx.default_size, WasmDocx.default_spacing,
    WasmDocx.created_at, WasmDocx.updated_at, WasmDocx.enableTaskpanes,
    apply_ite (f := WasmDocx.pageSize)]
  cases s.sectionProperty._pageSize <;> simp

theorem createDocx_pageOrient (s : DocxState) :
    (createDocx s).pageOrient =
      match s.sectionProperty._pageSize with
      | some ps =>
        if ps.orient = some "landscape" then some PageOrientCode.Landscape
        else if ps.orient = some "portrait" then some PageOrientCode.Portrait
        else none
      | none => none := by
  simp only [createDocx, foldl_addDocxChild, foldl_addAbstractNumberingStep,
    foldl_addNumberingStep, foldl_addDocVarStep, foldl_addCustomPropertyStep,
    foldl_addWebExtensionStep, foldl_addCustomItemStep,
    WasmDocx.doc_id, WasmDocx.default_tab_stop, WasmDocx.page_margin,
    WasmDocx.page_size, WasmDocx.page_orient, WasmDocx.doc_grid,
    WasmDocx.default_fonts, WasmDocx.default_size, WasmDocx.default_spacing,
    WasmDocx.created_at, WasmDocx.updated_at, WasmDocx.enableTaskpanes,
    apply_ite (f := WasmDocx.pageOrient)]
  cases s.sectionProperty._pageSize with
  | none => simp
  | some ps => by_cases h1 : ps.orient = some "landscape" <;>
      by_cases h2 : ps.orient = some "portrait" <;> simp [h1, h2]

/-- The wasm border `buildCellBorders` derives from one JS border at a
given edge position. -/
def convCellBorder (pos : CellBorderPositionCode) (b : TableCellBorder) : WasmCellBorder :=
  { position := pos, size := b._size, color := b._color,
    borderType := convertBorderType b._border_type }

/-- The function `translateCellProperty` leaves every wasm border slot empty; borders
are filled only by the `buildCellBorders` step of `buildCell`. -/
theorem translateCellProperty_borders (p : CellProperty) :
    (translateCellProperty p).borders = {} := by
  unfold translateCellProperty
  cases p.textDirection <;> cases p.shading <;>
    simp [apply_ite (f := WasmCellProperty.borders)]

/-- Eliminating an option with a `none` default is `Option.map`. -/
theorem elim_none_map {α β : Type} (o : Option α) (f : α → β) :
    (o.elim none fun b => some (f b)) = o.map f := by
  cases o <;> rfl

theorem applyBorderSlot_Top (o : Option TableCellBorder) (cs : List WasmCellChild)
    (p : WasmCellProperty) :
    applyBorderSlot .Top o (.mk cs p) =
      .mk cs { p with borders := { p.borders with
        top := o.elim p.borders.top fun b => some (convCellBorder .Top b) } } := by
  cases o <;> rfl

theorem applyBorderSlot_Right (o : Option TableCellBorder) (cs : List WasmCellChild)
    (p : WasmCellProperty) :
    applyBorderSlot .Right o (.mk cs p) =
      .mk cs { p with borders := { p.borders with
        right := o.elim p.borders.right fun b => some (convCellBorder .Right b) } } := by
  cases o <;> rfl

theorem applyBorderSlot_Bottom (o : Option TableCellBorder) (cs : List WasmCellChild)
    (p : WasmCellProperty) :
    applyBorderSlot .Bottom o (.mk cs p) =
      .mk cs { p with borders := { p.borders with
        bottom := o.elim p.borders.bottom fun b => some (convCellBorder .Bottom b) } } := by
  cases o <;> rfl

theorem applyBorderSlot_Left (o : Option TableCellBorder) (cs : List WasmCellChild)
    (p : WasmCellProperty) :
    applyBorderSlot .Left o (.mk cs p) =
      .mk cs { p with borders := { p.borders with
        left := o.elim p.borders.left fun b => some (convCellBorder .Left b) } } := by
  cases o <;> rfl

theorem applyBorderSlot_InsideH (o : Option TableCellBorder) (cs : List WasmCellChild)
    (p : WasmCellProperty) :
    applyBorderSlot .InsideH o (.mk cs p) =
      .mk cs { p with borders := { p.borders with
        insideH := o.elim p.borders.insideH fun b => some (convCellBorder .InsideH b) } } := by
  cases o <;> rfl

theorem applyBorderSlot_InsideV (o : Option TableCellBorder) (cs : List WasmCellChild)
    (p : WasmCellProperty) :
    applyBorderSlot .InsideV o (.mk cs p) =
      .mk cs { p with borders := { p.borders with
        insideV := o.elim p.borders.insideV fun b => some (convCellBorder .InsideV b) } } := by
  cases o <;> rfl

theorem applyBorderSlot_Tl2br (o : Option TableCellBorder) (cs : List WasmCellChild)
    (p : WasmCellProperty) :
    applyBorderSlot .Tl2br o (.mk cs p) =
      .mk cs { p with borders := { p.borders with
        tl2br := o.elim p.borders.tl2br fun b => some (convCellBorder .Tl2br b) } } := by
  cases o <;> rfl

theorem applyBorderSlot_Tr2bl (o : Option TableCellBorder) (cs : List WasmCellChild)
    (p : WasmCellProperty) :
    applyBorderSlot .Tr2bl o (.mk cs p) =
      .mk cs { p with borders := { p.borders with
        tr2bl := o.elim p.borders.tr2bl fun b => some (convCellBorder .Tr2bl b) } } := by
  cases o <;> rfl

/-- Slot characterization of `buildCell` for a cell carrying a borders
object: each of the eight wasm edge slots is the translation of the
corresponding JS slot alone, independent of the seven others. -/
theorem buildCell_borders_slots (children : List TableCellChild) (prop : CellProperty)
    (bs : TableCellBorders) :
    (buildCell (.mk children { prop with borders := some bs })).property.borders =
      { top := bs.top.map (convCellBorder .Top),
        right := bs.right.map (convCellBorder .Right),
        bottom := bs.bottom.map (convCellBorder .Bottom),
        left := bs.left.map (convCellBorder .Left),
        insideH := bs.insideH.map (convCellBorder .InsideH),
        insideV := bs.insideV.map (convCellBorder .InsideV),
        tl2br := bs.tl2br.map (convCellBorder .Tl2br),
        tr2bl := bs.tr2bl.map (convCellBorder .Tr2bl) } := by
  rw [buildCell]
  simp only [Option.isSome_some, if_true, buildCellBorders, TableCell.property,
    Option.getD_some]
  rw [applyBorderSlot_Top, applyBorderSlot_Right, applyBorderSlot_Bottom,
    applyBorderSlot_Left, applyBorderSlot_InsideH, applyBorderSlot_InsideV,
    applyBorderSlot_Tl2br, applyBorderSlot_Tr2bl]
  simp only [WasmTableCell.property, translateCellProperty_borders]
  simp [elim_none_map]

/-- The function `buildAbstractNumbering` preserves ids, so an id search over the built
list equals the search over the JS list. -/
theorem anyId_map_buildAbstractNumbering (l : List AbstractNumbering) (k : Nat) :
    ((l.map buildAbstractNumbering).any fun a => a.id == k) = l.any fun a => a.id == k := by
  induction l with
  | nil => rfl
  | cons a rest ih => simp only [List.map_cons, List.any_cons, ih, buildAbstractNumbering]

/-- The numbering invariant of the wasm tree `createDocx` produces,
expressed over the JS-side lists. -/
theorem numberingInvariant_createDocx (s : DocxState) :
    numberingInvariant (createDocx s) =
      s.numberings.all (fun n => s.abstractNumberings.any (fun a => a.id == n.abstractNumId)) := by
  rw [numberingInvariant, createDocx_numberings, createDocx_abstractNumberings]
  induction s.numberings with
  | nil => rfl
  | cons n rest ih =>
    simp only [anyId_map_buildAbstractNumbering] at ih
    simp only [List.map_cons, List.all_cons, anyId_map_buildAbstractNumbering, buildNumbering, ih]

/-- One builder call sets `hasNumberings` exactly when it adds a
numbering-using paragraph or table. -/
theorem applyOp_hasNumberings (s : DocxState) (op : DocxOp) :
    (applyOp s op).hasNumberings = (s.hasNumberings || opUsesNumbering op) := by
  cases op <;>
    simp [applyOp, opUsesNumbering, DocxState.addParagraph, DocxState.addTable,
      DocxState.addBookmarkStart, DocxState.addBookmarkEnd,
      DocxState.addAbstractNumbering, DocxState.addNumbering, DocxState.docId,
      DocxState.defaultTabStop, DocxState.createdAt, DocxState.customProperty,
      DocxState.updatedAt, DocxState.addDocVar, DocxState.pageSize,
      DocxState.pageMargin, DocxState.pageOrientation, DocxState.docGrid,
      DocxState.defaultSize, DocxState.defaultFonts, DocxState.defaultSpacing,
      DocxState.taskpanes, DocxState.webextension, DocxState.addCustomItem]
  case addParagraph p => cases p.hasNumberings <;> simp
  case addTable t => cases t.hasNumberings <;> simp

/-- Over a builder-call sequence, `hasNumberings` is set exactly when some
call added a numbering-using paragraph or table. -/
theorem applyOps_hasNumberings (ops : List DocxOp) (s : DocxState) :
    (applyOps s ops).hasNumberings = (s.hasNumberings || ops.any opUsesNumbering) := by
  induction ops generalizing s with
  | nil => simp [applyOps]
  | cons op rest ih =>
    simp only [applyOps, List.foldl_cons] at *
    rw [ih, applyOp_hasNumberings, List.any_cons, Bool.or_assoc]

/-! ## The claims -/

/-- C4: for every input string, `convertBorderType` returns the code for
"single" whenever the string is not one of the ten recognized border-type
literals, and `convertWidthType` returns the code for "DXA" whenever the
string is not one of nil, Pct, DXA, Auto; unrecognized enum strings never
cause a failure. -/
theorem convert_unrecognized_defaults (t u : String)
    (ht : t ∉ recognizedBorderTypes) (hu : u ∉ recognizedWidthTypes) :
    convertBorderType t = BorderTypeCode.Single ∧ convertWidthType u = WidthTypeCode.DXA := by
  simp only [recognizedBorderTypes, List.mem_cons, List.not_mem_nil, or_false,
    not_or] at ht
  simp only [recognizedWidthTypes, List.mem_cons, List.not_mem_nil, or_false,
    not_or] at hu
  obtain ⟨h1, h2, h3, h4, h5, h6, h7, h8, h9, h10⟩ := ht
  obtain ⟨g1, g2, g3, g4⟩ := hu
  exact ⟨by simp [convertBorderType, h1, h2, h3, h4, h5, h6, h7, h8, h9, h10],
    by simp [convertWidthType, g1, g2, g3, g4]⟩

/-- Witness for C4 at the concrete unrecognized literals "wavy" and
"EMU". -/
theorem convert_unrecognized_defaults_witness :
    ("wavy" ∉ recognizedBorderTypes) ∧ ("EMU" ∉ recognizedWidthTypes) ∧
      (convertBorderType "wavy" = BorderTypeCode.Single ∧
        convertWidthType "EMU" = WidthTypeCode.DXA) :=
  ⟨by decide, by decide, convert_unrecognized_defaults "wavy" "EMU" (by decide) (by decide)⟩

/-- C10: a `Break` child whose type is not "column", "page" or
"textWrapping" contributes no element at all to the built run: it is
silently dropped rather than mapped to a default break type or rejected. -/
theorem unrecognized_break_dropped (pre post : List RunChild) (prop : RunProperty)
    (t : String) (h1 : t ≠ "column") (h2 : t ≠ "page") (h3 : t ≠ "textWrapping") :
    buildRunChild (RunChild.breakChild t) = none ∧
      (buildRun ⟨pre ++ RunChild.breakChild t :: post, prop⟩).children =
        (buildRun ⟨pre ++ post, prop⟩).children := by
  have hnone : buildRunChild (RunChild.breakChild t) = none := by
    simp [buildRunChild, h1, h2, h3]
  refine ⟨hnone, ?_⟩
  simp [buildRun, List.filterMap_append, hnone]

/-- Witness for C10 at the concrete unrecognized break type "lineBreak". -/
theorem unrecognized_break_dropped_witness :
    ("lineBreak" ≠ "column") ∧
      (buildRunChild (RunChild.breakChild "lineBreak") = none ∧
        (buildRun ⟨[RunChild.text "a"] ++ RunChild.breakChild "lineBreak" :: [], {}⟩).children =
          (buildRun ⟨[RunChild.text "a"] ++ [], {}⟩).children) :=
  ⟨by decide,
    unrecognized_break_dropped [RunChild.text "a"] [] {} "lineBreak"
      (by decide) (by decide) (by decide)⟩

/-- C2: building the same unchanged model twice yields identical output
apart from the explicitly wall-clock-bound created/updated metadata: the
built package is a function of the model alone once those two core-part
fields are erased, whatever the two build-time clocks read. -/
theorem build_deterministic (s : DocxState) (t1 t2 : String) :
    (s.build t1).map stripTimesPkg = (s.build t2).map stripTimesPkg := by
  simp only [DocxState.build, DocxState.buildTraced, wasmBuild]
  split <;> simp [stripTimesPkg, buildPackage, Except.map]

/-- C9: after `build()` returns its buffer the wasm document handle has
been freed, and the JS instance state was only read, not modified; the
same holds for `json()`. -/
theorem terminal_calls_free_handle (s : DocxState) (now : String) :
    (s.buildTraced now).handle.freed = true ∧ (s.buildTraced now).self = s ∧
      s.jsonTraced.handle.freed = true ∧ s.jsonTraced.self = s :=
  ⟨rfl, rfl, rfl, rfl⟩

/-- C7: a document whose section property carries page size 16838 x 11906
and orientation "landscape" is serialized with exactly those literals: the
engine stores width 16838 and height 11906 unswapped next to the landscape
flag. -/
theorem page_size_literal_landscape (s : DocxState)
    (h : s.sectionProperty._pageSize = some ⟨16838, 11906, some "landscape"⟩) :
    (createDocx s).pageSize = some (16838, 11906) ∧
      (createDocx s).pageOrient = some PageOrientCode.Landscape := by
  refine ⟨?_, ?_⟩
  · rw [createDocx_pageSize, h]; rfl
  · rw [createDocx_pageOrient, h]; simp

/-- Witness for C7 at the concrete document built by
`pageSize(16838, 11906).pageOrientation("landscape")`. -/
theorem page_size_literal_landscape_witness :
    landscapeDoc.sectionProperty._pageSize = some ⟨16838, 11906, some "landscape"⟩ ∧
      ((createDocx landscapeDoc).pageSize = some (16838, 11906) ∧
        (createDocx landscapeDoc).pageOrient = some PageOrientCode.Landscape) :=
  ⟨rfl, page_size_literal_landscape landscapeDoc rfl⟩

/-- C3: `build()` fails with `ValidationError` — synchronously and fatally,
yielding no package — exactly when some `Numbering.abstractNumId` does not
reference an existing `AbstractNumbering.id`; under the referential
invariant no `ValidationError` is raised. -/
theorem numbering_validation_iff (s : DocxState) (now : String) :
    s.build now = .error DocxError.validation ↔
      ∃ n ∈ s.numberings, ∀ a ∈ s.abstractNumberings, a.id ≠ n.abstractNumId := by
  have hinv := numberingInvariant_createDocx s
  rw [DocxState.build, DocxState.buildTraced]
  simp only [wasmBuild, hinv]
  by_cases h : (s.numberings.all fun n =>
      s.abstractNumberings.any fun a => a.id == n.abstractNumId) = true
  · rw [if_pos h]
    simp only [List.all_eq_true, List.any_eq_true, beq_iff_eq] at h
    constructor
    · intro hcontra; exact Except.noConfusion hcontra
    · rintro ⟨n, hn, hall⟩
      obtain ⟨a, ha, haeq⟩ := h n hn
      exact absurd haeq (hall a ha)
  · rw [if_neg h]
    simp only [List.all_eq_true, List.any_eq_true, beq_iff_eq] at h
    push_neg at h
    obtain ⟨n, hn, hall⟩ := h
    exact ⟨fun _ => ⟨n, hn, hall⟩, fun _ => rfl⟩

/-- C5: for a document assembled by any sequence of builder calls, the
built package contains the numbering part iff some call added a paragraph
or table that uses numbering — the `hasNumberings` flag those two calls
maintain and `build()` passes to the wasm call. -/
theorem numbering_part_iff_used (ops : List DocxOp) (now : String) (pkg : Package)
    (h : (applyOps {} ops).build now = .ok pkg) :
    pkg.numberingPart.isSome = ops.any opUsesNumbering := by
  rw [DocxState.build, DocxState.buildTraced] at h
  simp only [wasmBuild] at h
  by_cases hv : numberingInvariant (createDocx (applyOps {} ops)) = true
  · rw [if_pos hv] at h
    injection h with h
    subst h
    have hN := applyOps_hasNumberings ops {}
    simp only [Bool.false_or] at hN
    simp only [buildPackage, hN]
    cases ops.any opUsesNumbering <;> simp
  · rw [if_neg hv] at h
    exact Except.noConfusion h

/-- Witness for C5 at the one-call sequence adding a paragraph bound to
numbering (0, 0). -/
theorem numbering_part_iff_used_witness :
    (applyOps {} numberingOps).build "now" = .ok numberingOpsPkg ∧
      numberingOpsPkg.numberingPart.isSome = numberingOps.any opUsesNumbering :=
  ⟨rfl, numbering_part_iff_used numberingOps "now" numberingOpsPkg rfl⟩

/-- Counterexample to C8 as stated: a web extension registered by
`webextension()` while `_taskpanes` is still false IS passed to the wasm
document and DOES produce its part, because `createDocx` checks the flag
only at build time — here `taskpanes()` is called after the registration,
and the built package contains the web-extension part. -/
theorem webextension_order_counterexample :
    (applyOps {} [DocxOp.webextension sampleExt])._taskpanes = false ∧
      (createDocx extThenTaskpanesDoc).webExtensions = [buildWebExtension sampleExt] ∧
      (extThenTaskpanesDoc.build "now").toOption.map Package.webExtensionsPart =
        some (some [buildWebExtension sampleExt]) :=
  ⟨rfl, rfl, rfl⟩

/-- C8 as amended: the web-extension part of the built package is present
iff `_taskpanes` is true when `build()` is called, and the extensions
passed to the wasm document are exactly the registered ones under that
flag (all of them when it is set — regardless of the registration order —
and none otherwise). -/
theorem webextensions_iff_taskpanes (s : DocxState) (now : String) (pkg : Package)
    (h : s.build now = .ok pkg) :
    pkg.webExtensionsPart.isSome = s._taskpanes ∧
      (createDocx s).webExtensions =
        (if s._taskpanes then s.webextensions.map buildWebExtension else []) := by
  refine ⟨?_, createDocx_webExtensions s⟩
  rw [DocxState.build, DocxState.buildTraced] at h
  simp only [wasmBuild] at h
  by_cases hv : numberingInvariant (createDocx s) = true
  · rw [if_pos hv] at h
    injection h with h
    subst h
    simp only [buildPackage, createDocx_taskpanes]
    cases s._taskpanes <;> simp
  · rw [if_neg hv] at h
    exact Except.noConfusion h

/-- Witness for the amended C8 at the document registering an extension
and then enabling task panes. -/
theorem webextensions_iff_taskpanes_witness :
    extThenTaskpanesDoc.build "now" = .ok extThenTaskpanesPkg ∧
      (extThenTaskpanesPkg.webExtensionsPart.isSome = extThenTaskpanesDoc._taskpanes ∧
        (createDocx extThenTaskpanesDoc).webExtensions =
          (if extThenTaskpanesDoc._taskpanes then
            extThenTaskpanesDoc.webextensions.map buildWebExtension else [])) :=
  ⟨rfl, webextensions_iff_taskpanes extThenTaskpanesDoc "now" extThenTaskpanesPkg rfl⟩

/-- Counterexample to C1 as stated: a model that defines a numbering (and
its abstract numbering) without any paragraph or table using numbering
builds successfully, but its numbering definitions are dropped from the
package (`hasNumberings` is false, so the numbering part is omitted), so
the reconstruction is not structurally equal to the model on the
deterministic `numberings` field. -/
theorem roundtrip_counterexample :
    unusedNumberingDoc.numberings = [{ id := 1, abstractNumId := 5 }] ∧
      (createDocx unusedNumberingDoc).numberings =
        [buildNumbering { id := 1, abstractNumId := 5 }] ∧
      (unusedNumberingDoc.build "2024-01-01").toOption.map
          (fun p => (readDocx p).numberings) = some [] ∧
      ([] : List WasmNumbering) ≠ [buildNumbering { id := 1, abstractNumId := 5 }] :=
  ⟨rfl, rfl, rfl, by simp⟩

/-- C1 as amended: the round trip `readDocx ∘ build` reproduces the
canonical model on every field not bound to wall-clock generation — in
particular absent optional parts stay absent — provided numbering
definitions are present only when the `hasNumberings` flag is set (that
is, only when some added paragraph or table actually uses numbering). -/
theorem roundtrip_amended (s : DocxState) (now : String) (pkg : Package)
    (hnum : s.hasNumberings = false → s.abstractNumberings = [] ∧ s.numberings = [])
    (h : s.build now = .ok pkg) :
    stripTimes (readDocx pkg) = stripTimes (createDocx s) := by
  rw [DocxState.build, DocxState.buildTraced] at h
  simp only [wasmBuild] at h
  by_cases hv : numberingInvariant (createDocx s) = true
  · rw [if_pos hv] at h
    injection h with h
    subst h
    have htp := createDocx_taskpanes s
    have hwe := createDocx_webExtensions s
    have han := createDocx_abstractNumberings s
    have hnn := createDocx_numberings s
    simp only [readDocx, readPackage, buildPackage, stripTimes]
    cases hflag : s.hasNumberings with
    | true =>
      cases hts : s._taskpanes with
      | true =>
        simp_all
        cases hcp : (createDocx s).customProperties <;> simp
      | false =>
        simp_all
        cases hcp : (createDocx s).customProperties <;> simp
    | false =>
      obtain ⟨ha, hn⟩ := hnum hflag
      cases hts : s._taskpanes with
      | true =>
        simp_all
        cases hcp : (createDocx s).customProperties <;> simp
      | false =>
        simp_all
        cases hcp : (createDocx s).customProperties <;> simp
  · rw [if_neg hv] at h
    exact Except.noConfusion h

/-- C6: a table cell given a `tr2bl` border and additionally a `tl2br`
border — in either order of setting — retains both diagonal borders in the
built cell: they occupy independent edge slots, and the remaining six
slots are exactly what they would be without the diagonals. -/
theorem diagonal_borders_independent (base : TableCellBorders)
    (s1 s2 : Nat) (c1 c2 t1 t2 : String)
    (children : List TableCellChild) (prop : CellProperty) :
    setBorder (setBorder base (TableCellBorder.mk "tr2bl" s1 c1 t1))
        (TableCellBorder.mk "tl2br" s2 c2 t2) =
      setBorder (setBorder base (TableCellBorder.mk "tl2br" s2 c2 t2))
        (TableCellBorder.mk "tr2bl" s1 c1 t1) ∧
    ((buildCell (.mk children { prop with borders := some (setBorder (setBorder base
          (TableCellBorder.mk "tr2bl" s1 c1 t1))
          (TableCellBorder.mk "tl2br" s2 c2 t2)) })).property.borders.tr2bl =
        some (WasmCellBorder.mk .Tr2bl s1 c1 (convertBorderType t1))) ∧
    ((buildCell (.mk children { prop with borders := some (setBorder (setBorder base
          (TableCellBorder.mk "tr2bl" s1 c1 t1))
          (TableCellBorder.mk "tl2br" s2 c2 t2)) })).property.borders.tl2br =
        some (WasmCellBorder.mk .Tl2br s2 c2 (convertBorderType t2))) ∧
    ((buildCell (.mk children { prop with borders := some (setBorder (setBorder base
          (TableCellBorder.mk "tr2bl" s1 c1 t1))
          (TableCellBorder.mk "tl2br" s2 c2 t2)) })).property.borders.top =
        (buildCell (.mk children { prop with borders := some base })).property.borders.top) ∧
    ((buildCell (.mk children { prop with borders := some (setBorder (setBorder base
          (TableCellBorder.mk "tr2bl" s1 c1 t1))
          (TableCellBorder.mk "tl2br" s2 c2 t2)) })).property.borders.right =
        (buildCell (.mk children { prop with borders := some base })).property.borders.right) ∧
    ((buildCell (.mk children { prop with borders := some (setBorder (setBorder base
          (TableCellBorder.mk "tr2bl" s1 c1 t1))
          (TableCellBorder.mk "tl2br" s2 c2 t2)) })).property.borders.bottom =
        (buildCell (.mk children { prop with borders := some base })).property.borders.bottom) ∧
    ((buildCell (.mk children { prop with borders := some (setBorder (setBorder base
          (TableCellBorder.mk "tr2bl" s1 c1 t1))
          (TableCellBorder.mk "tl2br" s2 c2 t2)) })).property.borders.left =
        (buildCell (.mk children { prop with borders := some base })).property.borders.left) ∧
    ((buildCell (.mk children { prop with borders := some (setBorder (setBorder base
          (TableCellBorder.mk "tr2bl" s1 c1 t1))
          (TableCellBorder.mk "tl2br" s2 c2 t2)) })).property.borders.insideH =
        (buildCell (.mk children { prop with borders := some base })).property.borders.insideH) ∧
    ((buildCell (.mk children { prop with borders := some (setBorder (setBorder base
          (TableCellBorder.mk "tr2bl" s1 c1 t1))
          (TableCellBorder.mk "tl2br" s2 c2 t2)) })).property.borders.insideV =
        (buildCell (.mk children { prop with borders := some base })).property.borders.insideV) := by
  have hA : setBorder (setBorder base (TableCellBorder.mk "tr2bl" s1 c1 t1))
      (TableCellBorder.mk "tl2br" s2 c2 t2) =
      { base with tl2br := some (TableCellBorder.mk "tl2br" s2 c2 t2),
                  tr2bl := some (TableCellBorder.mk "tr2bl" s1 c1 t1) } := rfl
  have hB : setBorder (setBorder base (TableCellBorder.mk "tl2br" s2 c2 t2))
      (TableCellBorder.mk "tr2bl" s1 c1 t1) =
      { base with tl2br := some (TableCellBorder.mk "tl2br" s2 c2 t2),
                  tr2bl := some (TableCellBorder.mk "tr2bl" s1 c1 t1) } := rfl
  refine ⟨hA.trans hB.symm, ?_, ?_, ?_, ?_, ?_, ?_, ?_, ?_⟩ <;>
    rw [hA] <;> simp [buildCell_borders_slots, convCellBorder]

/-- Witness for the amended C1 at the empty document. -/
theorem roundtrip_amended_witness :
    (({} : DocxState).hasNumberings = false →
        ({} : DocxState).abstractNumberings = [] ∧ ({} : DocxState).numberings = []) ∧
      ({} : DocxState).build "t" = .ok emptyDocPkg ∧
      stripTimes (readDocx emptyDocPkg) = stripTimes (createDocx {}) :=
  ⟨fun _ => ⟨rfl, rfl⟩, rfl,
    roundtrip_amended {} "t" emptyDocPkg (fun _ => ⟨rfl, rfl⟩) rfl⟩

end DocxWasm
